import Mathlib

/-!
# OreGo: context collector, store and capture pipeline

A shallow embedding of the parts of OreGo that its specification makes
claims about:

* `pkg/models/models.go`      : the `Screenshot` aggregate and its sub-records;
* `pkg/hyprland/hyprland.go`  : `GetScreenshotData`, the context collector;
* `internal/db/db.go`         : `Store.Save`, `Store.ListScreenshots`,
                                `Store.DeleteScreenshot`, `New`;
* `internal/cli/capture.go`   : the grabber argument list of `runCapture`, its
                                confirm-wait loop and the persistence step.

Go `int` values are modelled as `Int`; byte slices as lists of bytes.
External collaborators (the `hyprctl` binary, `encoding/json`, the clock,
the SQL engine) are explicit parameters of the embedded functions.
-/

set_option autoImplicit false

namespace OreGo

/-! ## Data model (`pkg/models/models.go`) -/

/-- Go `[]byte`. -/
abbrev Bytes := List UInt8

/-- Record `models.CaptureMetadata`; `Ts` is kept as an abstract instant. -/
structure CaptureMetadata where
  Ts : Int
  Timezone : String
  Hostname : String
  User : String
  Command : String
  Version : String
deriving DecidableEq, Repr

/-- Record `models.WindowState`. -/
structure WindowState where
  Floating : Bool
  Fullscreen : Int
  Xwayland : Bool
  Pinned : Bool
deriving DecidableEq, Repr

/-- Record `models.ActiveWindow`. -/
structure ActiveWindow where
  Address : String
  Class : String
  Title : String
  Pid : Int
  State : WindowState
deriving DecidableEq, Repr

/-- Record `models.Workspace`. -/
structure Workspace where
  ID : Int
  Name : String
  Monitor : String
  Windows : Int
  HasFullscreen : Bool
  LastWindowTitle : String
deriving DecidableEq, Repr

/-- Record `models.Client`. -/
structure Client where
  Address : String
  Class : String
  Title : String
  Pid : Int
  WorkspaceID : Int
deriving DecidableEq, Repr

/-- Record `models.Screenshot`, the aggregate of a single capture. -/
structure Screenshot where
  ID : Int
  FilePath : String
  Capture : CaptureMetadata
  ActiveWindow : ActiveWindow
  Workspace : Workspace
  Clients : List Client
deriving DecidableEq, Repr

/-! ## Compositor records (`pkg/hyprland/hyprland.go`) -/

/-- The anonymous struct with `id` and `name` used for `activeWorkspace` and `workspace`. -/
structure WorkspaceRef where
  ID : Int
  Name : String
deriving DecidableEq, Repr

/-- Record `HyprMonitor`, an element of the output of the monitors query. -/
structure HyprMonitor where
  ID : Int
  Name : String
  Focused : Bool
  ActiveWorkspace : WorkspaceRef
deriving DecidableEq, Repr

/-- Record `HyprWindow`, the output of the active-window query and an element of the clients query. -/
structure HyprWindow where
  Address : String
  Class : String
  Title : String
  Pid : Int
  Workspace : WorkspaceRef
  Floating : Bool
  Fullscreen : Int
  Xwayland : Bool
  Pinned : Bool
deriving DecidableEq, Repr

/-- Go zero value of `HyprMonitor` (`var activeMon HyprMonitor`). -/
def HyprMonitor.zero : HyprMonitor :=
  { ID := 0, Name := "", Focused := false, ActiveWorkspace := { ID := 0, Name := "" } }

/-- Go zero value of `HyprWindow` (`var activeWin HyprWindow`). -/
def HyprWindow.zero : HyprWindow :=
  { Address := "", Class := "", Title := "", Pid := 0, Workspace := { ID := 0, Name := "" },
    Floating := false, Fullscreen := 0, Xwayland := false, Pinned := false }

/-- The surroundings of the collector: the `hyprctl` binary (`runHyprctl`), the
`encoding/json` decoder at the three target types, and the host facts read for
the capture metadata.  `unmarshalWindow raw` is the content of a zero-valued
`HyprWindow` after `json.Unmarshal(raw, &activeWin)`, whose error is discarded
by the collector. -/
structure Host where
  runHyprctl : List String → Except String Bytes
  unmarshalWindow : Bytes → HyprWindow
  unmarshalMonitors : Bytes → Except String (List HyprMonitor)
  unmarshalClients : Bytes → Except String (List HyprWindow)
  hostname : String
  currentUser : Option String
  now : Int
  zone : String

/-- The two bytes of the text of the empty JSON object. -/
def emptyObject : Bytes := [123, 125]

/-- Lines 51-55: the active window is decoded only when the output is
non-empty and differs from the empty object; otherwise it stays zero. -/
def decodeActiveWindow (h : Host) (rawActive : Bytes) : HyprWindow :=
  if rawActive.length > 0 ∧ rawActive ≠ emptyObject then h.unmarshalWindow rawActive
  else HyprWindow.zero

/-- Go `map[int]bool`, as an association list; the newest binding is in front. -/
abbrev IntBoolMap := List (Int × Bool)

/-- Map read `m[k]`: the stored value, or `false` (the zero value) when `k` is absent. -/
def IntBoolMap.get (m : IntBoolMap) (k : Int) : Bool :=
  match m with
  | [] => false
  | (key, v) :: rest => if key = k then v else IntBoolMap.get rest k

/-- Map write `m[k] = v`. -/
def IntBoolMap.set (m : IntBoolMap) (k : Int) (v : Bool) : IntBoolMap :=
  (k, v) :: m

/-- The variables of the monitor loop (lines 66-68). -/
structure MonitorScan where
  activeMon : HyprMonitor
  visibleWorkspaceIDs : IntBoolMap
  foundMon : Bool

/-- One iteration of the monitor loop (lines 70-76). -/
def monitorStep (s : MonitorScan) (m : HyprMonitor) : MonitorScan :=
  let visible := s.visibleWorkspaceIDs.set m.ActiveWorkspace.ID true
  if m.Focused then { activeMon := m, visibleWorkspaceIDs := visible, foundMon := true }
  else { s with visibleWorkspaceIDs := visible }

/-- The monitor loop followed by the fallback of lines 77-79. -/
def scanMonitors (monitors : List HyprMonitor) : MonitorScan :=
  let s := monitors.foldl monitorStep
    { activeMon := HyprMonitor.zero, visibleWorkspaceIDs := [], foundMon := false }
  if (!s.foundMon) && decide (monitors.length > 0) then
    { s with activeMon := monitors.headD s.activeMon }
  else s

/-- The variables of the client loop (lines 90-92). -/
structure ClientScan where
  workspaceClients : List Client
  windowCount : Int
  lastWindowTitle : String

/-- The test of lines 97-106. -/
def shouldInclude (captureAll : Bool) (visibleWorkspaceIDs : IntBoolMap)
    (targetWorkspaceID : Int) (c : HyprWindow) : Bool :=
  if captureAll then
    if visibleWorkspaceIDs.get c.Workspace.ID then true else false
  else
    if c.Workspace.ID = targetWorkspaceID then true else false

/-- The client record appended at lines 112-118. -/
def toClient (c : HyprWindow) : Client :=
  { Address := c.Address, Class := c.Class, Title := c.Title, Pid := c.Pid,
    WorkspaceID := c.Workspace.ID }

/-- One iteration of the client loop (lines 96-120). -/
def clientStep (captureAll : Bool) (visibleWorkspaceIDs : IntBoolMap)
    (targetWorkspaceID : Int) (s : ClientScan) (c : HyprWindow) : ClientScan :=
  if shouldInclude captureAll visibleWorkspaceIDs targetWorkspaceID c then
    { workspaceClients := s.workspaceClients ++ [toClient c],
      windowCount := s.windowCount + 1,
      lastWindowTitle := c.Title }
  else s

/-- The client loop (lines 90-120). -/
def scanClients (captureAll : Bool) (visibleWorkspaceIDs : IntBoolMap)
    (targetWorkspaceID : Int) (allClients : List HyprWindow) : ClientScan :=
  allClients.foldl (clientStep captureAll visibleWorkspaceIDs targetWorkspaceID)
    { workspaceClients := [], windowCount := 0, lastWindowTitle := "" }

/-- Lines 122-169: the record composed from the decoded inputs. -/
def composeScreenshot (h : Host) (captureAll : Bool) (activeWin : HyprWindow)
    (activeMon : HyprMonitor) (cs : ClientScan) : Screenshot :=
  let username := match h.currentUser with
    | some u => u
    | none => "unknown"
  let monitorName := if captureAll then "all-visible" else activeMon.Name
  { ID := 0,
    FilePath := "",
    Capture := { Ts := h.now, Timezone := h.zone, Hostname := h.hostname, User := username,
                 Command := "orego capture", Version := "0.1.0" },
    ActiveWindow := { Address := activeWin.Address, Class := activeWin.Class,
                      Title := activeWin.Title, Pid := activeWin.Pid,
                      State := { Floating := activeWin.Floating,
                                 Fullscreen := activeWin.Fullscreen,
                                 Xwayland := activeWin.Xwayland,
                                 Pinned := activeWin.Pinned } },
    Workspace := { ID := activeMon.ActiveWorkspace.ID,
                   Name := activeMon.ActiveWorkspace.Name,
                   Monitor := monitorName,
                   Windows := cs.windowCount,
                   HasFullscreen := decide (activeWin.Fullscreen > 0) &&
                     decide (activeWin.Workspace.ID = activeMon.ActiveWorkspace.ID),
                   LastWindowTitle := cs.lastWindowTitle },
    Clients := cs.workspaceClients }

/-- Function `GetScreenshotData` of `pkg/hyprland/hyprland.go`. -/
def GetScreenshotData (h : Host) (captureAll : Bool) : Except String Screenshot :=
  match h.runHyprctl ["activewindow", "-j"] with
  | .error e => .error ("failed to get active window: " ++ e)
  | .ok rawActive =>
    let activeWin := decodeActiveWindow h rawActive
    match h.runHyprctl ["monitors", "-j"] with
    | .error e => .error ("failed to get monitors: " ++ e)
    | .ok rawMonitors =>
      match h.unmarshalMonitors rawMonitors with
      | .error e => .error ("failed to parse monitors: " ++ e)
      | .ok monitors =>
        let ms := scanMonitors monitors
        match h.runHyprctl ["clients", "-j"] with
        | .error e => .error ("failed to get clients: " ++ e)
        | .ok rawClients =>
          match h.unmarshalClients rawClients with
          | .error e => .error ("failed to parse clients: " ++ e)
          | .ok allClients =>
            let targetWorkspaceID := ms.activeMon.ActiveWorkspace.ID
            let cs := scanClients captureAll ms.visibleWorkspaceIDs targetWorkspaceID allClients
            .ok (composeScreenshot h captureAll activeWin ms.activeMon cs)

/-! ## Grabber arguments (`internal/cli/capture.go`, lines 103-108) -/

/-- The argument list handed to the grabber by `runCapture`. -/
def grimArgs (all : Bool) (monitor tmpPath : String) : List String :=
  if (!all) && (monitor != "") && (monitor != "all-visible") then ["-o", monitor, tmpPath]
  else [tmpPath]

/-! ## Store (`internal/db/db.go`) -/

/-- A row of table `screenshots`: the key and the 21 inserted columns, grouped
as in the record they come from. -/
structure ScreenshotRow where
  id : Int
  file_path : String
  capture : CaptureMetadata
  active_window : ActiveWindow
  workspace : Workspace
deriving DecidableEq, Repr

/-- A row of table `clients`. -/
structure ClientRow where
  id : Int
  screenshot_id : Int
  address : String
  class_ : String
  title : String
  pid : Int
  workspace_id : Int
deriving DecidableEq, Repr

/-- The content of the database file.  A table that has not been created is
`none`.  The two counters are the `AUTOINCREMENT` sequences. -/
structure Database where
  screenshots : Option (List ScreenshotRow)
  clients : Option (List ClientRow)
  seqScreenshots : Int
  seqClients : Int
deriving DecidableEq, Repr

/-- The handle `Store`: the database behind the connection, and whether the
connection enforces foreign keys (SQLite `PRAGMA foreign_keys`).  Foreign-key
actions such as `ON DELETE CASCADE` run only on a connection that enforces
them. -/
structure Store where
  db : Database
  foreignKeys : Bool
deriving DecidableEq, Repr

/-- A database file that does not exist yet. -/
def Database.fresh : Database :=
  { screenshots := none, clients := none, seqScreenshots := 0, seqClients := 0 }

/-- Method `init` (lines 41-94): both `CREATE TABLE IF NOT EXISTS` statements.
The two arguments are the errors of the two `Exec` calls, if any. -/
def Store.init (s : Store) (errScreenshots errClients : Option String) :
    Except String Store :=
  match errScreenshots with
  | some e => .error ("failed to create screenshots table: " ++ e)
  | none =>
    let db1 := { s.db with screenshots := some (s.db.screenshots.getD []) }
    match errClients with
    | some e => .error ("failed to create clients table: " ++ e)
    | none => .ok { s with db := { db1 with clients := some (db1.clients.getD []) } }

/-- The outcomes of the steps of `New` that can fail, and what the driver
gives a connection opened on the path: `connForeignKeys` is the foreign-key
enforcement of that connection.  `New` passes the bare path to `sql.Open` and
issues no `PRAGMA`, so this is whatever the driver defaults to. -/
structure OpenEnv where
  mkdirAll : Option String
  open_ : Option String
  connForeignKeys : Bool
  createScreenshots : Option String
  createClients : Option String

/-- Function `New` (lines 18-35), on the database found at `dbPath`. -/
def New (env : OpenEnv) (onDisk : Database) : Except String Store :=
  match env.mkdirAll with
  | some e => .error ("failed to create db directory: " ++ e)
  | none =>
    match env.open_ with
    | some e => .error ("failed to open db: " ++ e)
    | none =>
      let s : Store := { db := onDisk, foreignKeys := env.connForeignKeys }
      match s.init env.createScreenshots env.createClients with
      | .error e => .error e
      | .ok s1 => .ok s1

/-- SQLite, as linked by the driver named in `sql.Open("sqlite3", dbPath)`:
a new connection does not enforce foreign keys unless it is told to. -/
def sqliteDefaultForeignKeys : Bool := false

/-- The errors injected into the steps of `Save`; `none` lets the step run.
`insertClient i` is for the insert of the client at position `i`. -/
structure SaveFaults where
  begin : Option String
  insertScreenshot : Option String
  lastInsertId : Option String
  insertClient : Nat → Option String
  commit : Option String

/-- No step fails. -/
def SaveFaults.noFault : SaveFaults :=
  { begin := Option.none, insertScreenshot := Option.none, lastInsertId := Option.none,
    insertClient := fun _ => Option.none, commit := Option.none }

/-- Statement `INSERT INTO screenshots (...) VALUES (...)` (lines 103-114)
inside the transaction: the new content and the row id, or the error. -/
def execInsertScreenshot (fault : Option String) (tx : Database) (sc : Screenshot) :
    Except String (Database × Int) :=
  match fault with
  | some e => .error e
  | Option.none =>
    match tx.screenshots with
    | Option.none => .error "no such table: screenshots"
    | some rows =>
      let id := tx.seqScreenshots + 1
      let row : ScreenshotRow :=
        { id := id, file_path := sc.FilePath, capture := sc.Capture,
          active_window := sc.ActiveWindow, workspace := sc.Workspace }
      .ok ({ tx with screenshots := some (rows ++ [row]), seqScreenshots := id }, id)

/-- Statement `INSERT INTO clients (...) VALUES (...)` (lines 126-130) inside
the transaction.  On a connection that enforces foreign keys the parent row
must exist. -/
def execInsertClient (fault : Option String) ( fk : Bool) (tx : Database) (id : Int)
    (client : Client) : Except String Database :=
  match fault with
  | some e => .error e
  | Option.none =>
    match tx.clients with
    | Option.none => .error "no such table: clients"
    | some rows =>
      if fk && !((tx.screenshots.getD []).any (fun r => r.id == id)) then
        .error "FOREIGN KEY constraint failed"
      else
        let cid := tx.seqClients + 1
        let row : ClientRow :=
          { id := cid, screenshot_id := id, address := client.Address, class_ := client.Class,
            title := client.Title, pid := client.Pid, workspace_id := client.WorkspaceID }
        .ok { tx with clients := some (rows ++ [row]), seqClients := cid }

/-- The loop of lines 125-134 from position `i` on: the content after the
inserts, or the error of the first insert that fails. -/
def insertClients (f : SaveFaults) ( fk : Bool) (id : Int) :
    Nat → Database → List Client → Except String Database
  | _, tx, [] => .ok tx
  | i, tx, client :: rest =>
    match execInsertClient (f.insertClient i) fk tx id client with
    | .error e => .error ("failed to insert client: " ++ e)
    | .ok tx1 => insertClients f fk id (i + 1) tx1 rest

/-- What `Save` leaves behind: the store, the record it was given a pointer
to, and the returned error (`none` for `nil`). -/
structure SaveResult where
  store : Store
  sc : Screenshot
  err : Option String

/-- Method `Store.Save` (lines 96-137).  The transaction works on a copy of the
database; the deferred `tx.Rollback()` drops the copy on every path but the
one where `tx.Commit()` succeeds. -/
def Store.Save (f : SaveFaults) (s : Store) (sc : Screenshot) : SaveResult :=
  match f.begin with
  | some e => { store := s, sc := sc, err := some e }
  | Option.none =>
    match execInsertScreenshot f.insertScreenshot s.db sc with
    | .error e => { store := s, sc := sc, err := some ("failed to insert screenshot: " ++ e) }
    | .ok (tx1, id) =>
      match f.lastInsertId with
      | some e => { store := s, sc := sc, err := some e }
      | Option.none =>
        let sc1 := { sc with ID := id }
        match insertClients f s.foreignKeys id 0 tx1 sc.Clients with
        | .error e => { store := s, sc := sc1, err := some e }
        | .ok tx2 =>
          match f.commit with
          | some e => { store := s, sc := sc1, err := some e }
          | Option.none => { store := { s with db := tx2 }, sc := sc1, err := Option.none }

/-- Method `Store.DeleteScreenshot` (lines 209-212): the statement
`DELETE FROM screenshots WHERE id = ?`.  The child rows go with the parent
through `ON DELETE CASCADE` exactly when the connection enforces foreign
keys.  Returns the store and the error of `Exec`. -/
def Store.DeleteScreenshot (fault : Option String) (s : Store) (id : Int) :
    Store × Option String :=
  match fault with
  | some e => (s, some e)
  | none =>
    match s.db.screenshots with
    | none => (s, some "no such table: screenshots")
    | some rows =>
      let kept := rows.filter (fun r => r.id != id)
      let children :=
        if s.foreignKeys && rows.any (fun r => r.id == id) then
          s.db.clients.map (fun cs => cs.filter (fun c => c.screenshot_id != id))
        else s.db.clients
      ({ s with db := { s.db with screenshots := some kept, clients := children } }, none)

/-- The rows of table `clients` that reference screenshot `id`. -/
def Store.clientRowsOf (s : Store) (id : Int) : List ClientRow :=
  (s.db.clients.getD []).filter (fun c => c.screenshot_id == id)

/-- A bound argument of a query (`[]interface{}`). -/
inductive SqlArg where
  | text (s : String)
  | int (n : Int)
deriving DecidableEq, Repr

/-- The initial value of `baseQuery` (lines 140-146). -/
def selectScreenshots : String :=
  "\n\tSELECT \n\t\tid, file_path, \n\t\tcapture_ts, capture_timezone, capture_hostname, capture_user, capture_command, capture_version,\n\t\tactive_window_address, active_window_class, active_window_title, active_window_pid,\n\t\tworkspace_id, workspace_name, workspace_monitor\n\tFROM screenshots"

/-- The allow-list `fieldMap` (lines 151-154). -/
def fieldMap : List (String × String) :=
  [("app", "active_window_class"), ("title", "active_window_title")]

/-- Lines 140-162 of `ListScreenshots`: the SQL text and the bound arguments. -/
def listQuery (limit : Int) (filterField filterValue : String) : String × List SqlArg :=
  let baseQuery := selectScreenshots
  let args : List SqlArg := []
  let (baseQuery, args) :=
    match fieldMap.lookup filterField with
    | some dbField =>
      if filterValue != "" then
        (baseQuery ++ (" WHERE " ++ dbField ++ " LIKE ?"),
          args ++ [SqlArg.text ("%" ++ filterValue ++ "%")])
      else (baseQuery, args)
    | none => (baseQuery, args)
  (baseQuery ++ " ORDER BY id DESC LIMIT ?", args ++ [SqlArg.int limit])

/-- The loop of lines 170-187: every row is scanned; the first scan that fails
ends the call with its error. -/
def scanRows : List Screenshot → List (Except String Screenshot) → Except String (List Screenshot)
  | results, [] => .ok results
  | results, row :: rest =>
    match row with
    | .error e => .error ("failed to scan screenshot: " ++ e)
    | .ok sc => scanRows (results ++ [sc]) rest

/-- Method `Store.ListScreenshots` (lines 139-188).  `dbQuery` is `s.db.Query`:
for an SQL text and its bound arguments, the error or the rows, each with the
outcome of its `Scan`. -/
def ListScreenshots (dbQuery : String → List SqlArg → Except String (List (Except String Screenshot)))
    (limit : Int) (filterField filterValue : String) : Except String (List Screenshot) :=
  let q := listQuery limit filterField filterValue
  match dbQuery q.1 q.2 with
  | .error e => .error ("failed to query screenshots: " ++ e)
  | .ok rows => scanRows [] rows

/-! ## Concrete inputs -/

/-- A host whose three queries succeed: the active-window query prints
`rawActive`, which decodes to `activeWin`; the other two outputs decode to
`monitors` and `clients`. -/
def fixedHost (rawActive : Bytes) (activeWin : HyprWindow) (monitors : List HyprMonitor)
    (clients : List HyprWindow) : Host :=
  { runHyprctl := fun args =>
      if args = ["activewindow", "-j"] then .ok rawActive
      else if args = ["monitors", "-j"] then .ok [91, 109, 93]
      else .ok [91, 99, 93],
    unmarshalWindow := fun _ => activeWin,
    unmarshalMonitors := fun _ => .ok monitors,
    unmarshalClients := fun _ => .ok clients,
    hostname := "host",
    currentUser := some "user",
    now := 0,
    zone := "UTC" }

/-- A window with the given identity on workspace `ws`, not fullscreen. -/
def mkWindow (address class_ title : String) (pid ws : Int) : HyprWindow :=
  { Address := address, Class := class_, Title := title, Pid := pid,
    Workspace := { ID := ws, Name := "" },
    Floating := false, Fullscreen := 0, Xwayland := false, Pinned := false }

/-- The clients of scenarios 1 and 2 of the specification. -/
def scenarioClients : List HyprWindow :=
  [mkWindow "0xA" "firefox" "Reddit" 111 2, mkWindow "0xB" "kitty" "vim" 222 2,
   mkWindow "0xC" "slack" "chat" 333 5]

/-- The monitor of scenario 1. -/
def monitorDP1 : HyprMonitor :=
  { ID := 1, Name := "DP-1", Focused := true, ActiveWorkspace := { ID := 2, Name := "code" } }

/-- A second monitor, showing workspace 5 (scenario 2). -/
def monitorDP2 : HyprMonitor :=
  { ID := 2, Name := "DP-2", Focused := true, ActiveWorkspace := { ID := 5, Name := "chat" } }

/-- Scenario 1: one focused monitor on workspace 2, the active window is the first client. -/
def scenario1 : Host :=
  fixedHost [91, 97, 93] (mkWindow "0xA" "firefox" "Reddit" 111 2) [monitorDP1] scenarioClients

/-- Scenario 2: two monitors whose active workspaces are 2 and 5. -/
def scenario2 : Host :=
  fixedHost [91, 97, 93] (mkWindow "0xA" "firefox" "Reddit" 111 2) [monitorDP1, monitorDP2]
    scenarioClients

/-- Scenario 3: as scenario 1 with a second monitor, and no monitor focused. -/
def scenario3 : Host :=
  fixedHost [91, 97, 93] (mkWindow "0xA" "firefox" "Reddit" 111 2)
    [{ monitorDP1 with Focused := false }, { monitorDP2 with Focused := false }] scenarioClients

/-- A host whose monitors query prints an empty array, and whose active window
is a fullscreen window on workspace 0. -/
def noMonitors : Host :=
  fixedHost [91, 97, 93] { mkWindow "0xD" "mpv" "film" 444 0 with Fullscreen := 2 } []
    [mkWindow "0xD" "mpv" "film" 444 0, mkWindow "0xA" "firefox" "Reddit" 111 2]

/-- A host whose monitors output does not parse. -/
def badMonitors : Host :=
  { scenario1 with unmarshalMonitors := fun _ => .error "unexpected end of JSON input" }

/-- A host whose active-window query prints the empty object.  The decoder is
given a fullscreen window to return, should it be called. -/
def noActiveWindow : Host :=
  fixedHost emptyObject { mkWindow "0xA" "firefox" "Reddit" 111 2 with Fullscreen := 2 }
    [monitorDP1] scenarioClients

/-- The client record of a window made by `mkWindow`. -/
def mkClient (address class_ title : String) (pid ws : Int) : Client :=
  { Address := address, Class := class_, Title := title, Pid := pid, WorkspaceID := ws }

/-- A record as collected on a `fixedHost`, given its active window, workspace and clients. -/
def collected (activeWindow : ActiveWindow) (workspace : Workspace) (clients : List Client) :
    Screenshot :=
  { ID := 0, FilePath := "",
    Capture := { Ts := 0, Timezone := "UTC", Hostname := "host", User := "user",
                 Command := "orego capture", Version := "0.1.0" },
    ActiveWindow := activeWindow, Workspace := workspace, Clients := clients }

/-- The active window of the scenarios, as recorded. -/
def firefoxActive : ActiveWindow :=
  { Address := "0xA", Class := "firefox", Title := "Reddit", Pid := 111,
    State := { Floating := false, Fullscreen := 0, Xwayland := false, Pinned := false } }

/-- The record expected in scenario 1 (single workspace). -/
def scenario1Record : Screenshot :=
  collected firefoxActive
    { ID := 2, Name := "code", Monitor := "DP-1", Windows := 2, HasFullscreen := false,
      LastWindowTitle := "vim" }
    [mkClient "0xA" "firefox" "Reddit" 111 2, mkClient "0xB" "kitty" "vim" 222 2]

/-- The record expected in scenario 2 (all visible workspaces). -/
def scenario2Record : Screenshot :=
  collected firefoxActive
    { ID := 5, Name := "chat", Monitor := "all-visible", Windows := 3, HasFullscreen := false,
      LastWindowTitle := "chat" }
    [mkClient "0xA" "firefox" "Reddit" 111 2, mkClient "0xB" "kitty" "vim" 222 2,
     mkClient "0xC" "slack" "chat" 333 5]

/-- The record collected on `noMonitors` in single-workspace mode. -/
def noMonitorsRecord : Screenshot :=
  collected
    { Address := "0xD", Class := "mpv", Title := "film", Pid := 444,
      State := { Floating := false, Fullscreen := 2, Xwayland := false, Pinned := false } }
    { ID := 0, Name := "", Monitor := "", Windows := 1, HasFullscreen := true,
      LastWindowTitle := "film" }
    [mkClient "0xD" "mpv" "film" 444 0]

/-- The record collected on `noActiveWindow` in single-workspace mode. -/
def noActiveWindowRecord : Screenshot :=
  collected
    { Address := "", Class := "", Title := "", Pid := 0,
      State := { Floating := false, Fullscreen := 0, Xwayland := false, Pinned := false } }
    { ID := 2, Name := "code", Monitor := "DP-1", Windows := 2, HasFullscreen := false,
      LastWindowTitle := "vim" }
    [mkClient "0xA" "firefox" "Reddit" 111 2, mkClient "0xB" "kitty" "vim" 222 2]

/-- Opening a database with every step succeeding, on a connection with the
engine's default foreign-key setting. -/
def plainOpen : OpenEnv :=
  { mkdirAll := none, open_ := none, connForeignKeys := sqliteDefaultForeignKeys,
    createScreenshots := none, createClients := none }

/-- The store that `New` returns for a database file that did not exist. -/
def openedStore : Store :=
  { db := { screenshots := some [], clients := some [], seqScreenshots := 0, seqClients := 0 },
    foreignKeys := false }

/-- The record of scenario 1 after the pipeline has set its file path. -/
def confirmedRecord : Screenshot :=
  { scenario1Record with
    FilePath := "/home/user/Pictures/Screenshots/2024-01-01_00-00-00_orego.png" }

/-- The insert of the second client fails; every other step succeeds. -/
def secondClientFails : SaveFaults :=
  { SaveFaults.noFault with
    insertClient := fun i => if i = 1 then some "disk I/O error" else none }

/-! ## Confirm-wait and persistence (`internal/cli/capture.go`, lines 131-179) -/

/-- The surroundings of the confirm-wait loop, poll by poll (polls are counted
from 0): `stat k` tells whether `os.Stat(targetPath)` returned no error at poll
`k`, and `since k` is the reading of `time.Since(start)` made at poll `k`, in
nanoseconds. -/
structure WaitEnv where
  stat : Nat → Bool
  since : Nat → Int

/-- What the end of `runCapture` does to the outside, in the order it does it. -/
inductive Event where
  | stat (poll : Nat) (found : Bool)
  | since (poll : Nat) (elapsed : Int)
  | sleep (nanos : Int)
  | stdout (text : String)
  | stderr (text : String)
  | save (sc : Screenshot)
  | encode (sc : Screenshot)
deriving DecidableEq, Repr

/-- The loop of lines 153-163, from poll `k` on, with `fuel` polls at most:
whether the file was found, and the events of the loop.  Every poll stats the
target first (line 154), reads the clock only when the stat failed (line 158),
and sleeps 500 ms and prints a dot before the next poll. -/
def confirmWait (env : WaitEnv) (timeout : Int) : Nat → Nat → Option (Bool × List Event)
  | 0, _ => none
  | fuel + 1, k =>
    if env.stat k then some (true, [Event.stat k true])
    else if env.since k > timeout then
      some (false, [Event.stat k false, Event.since k (env.since k)])
    else
      match confirmWait env timeout fuel (k + 1) with
      | none => none
      | some (found, events) =>
        some (found, Event.stat k false :: Event.since k (env.since k) ::
          Event.sleep 500000000 :: Event.stdout "." :: events)

/-- Lines 131-139: the target path, built with `filepath.Join` (here `join`)
from the home directory and the formatted time. -/
def targetPathOf (join : List String → String) (homeDir timestamp : String) : String :=
  let screenshotsDir := join [homeDir, "Pictures", "Screenshots"]
  let targetFilename := timestamp ++ "_orego.png"
  join [screenshotsDir, targetFilename]

/-- How `runCapture` ends after the editor has returned. -/
inductive CaptureEnd where
  | discarded
  | saveFailed (e : String)
  | reported (sc : Screenshot)
deriving DecidableEq, Repr

/-- The events, the store and the ending of lines 151-179. -/
structure PipelineTail where
  events : List Event
  store : Store
  ending : CaptureEnd
deriving DecidableEq, Repr

/-- Lines 151-179 of `runCapture`: the confirm-wait loop, then either the
discard message and a plain return, or `data.FilePath = targetPath`,
`store.Save(data)` and the JSON output (exit status 1 when `Save` fails). -/
def confirmAndPersist (env : WaitEnv) (f : SaveFaults) (store : Store) (timeout : Int)
    (targetPath : String) (data : Screenshot) (fuel : Nat) : Option PipelineTail :=
  match confirmWait env timeout fuel 0 with
  | none => none
  | some (found, events) =>
    if !found then
      some { events := events ++ [Event.stdout "\n",
               Event.stderr "Screenshot discarded (not saved within timeout).\n"],
             store := store, ending := CaptureEnd.discarded }
    else
      let data1 := { data with FilePath := targetPath }
      let res := Store.Save f store data1
      match res.err with
      | some e =>
        some { events := events ++ [Event.stdout "\n", Event.save data1,
                 Event.stderr ("Error saving to DB: " ++ e ++ "\n")],
               store := res.store, ending := CaptureEnd.saveFailed e }
      | none =>
        some { events := events ++ [Event.stdout "\n", Event.save data1, Event.encode res.sc],
               store := res.store, ending := CaptureEnd.reported res.sc }

/-- A path joiner for concrete inputs: empty elements are skipped, the others
are put together with a slash. -/
def joinPath : List String → String
  | [] => ""
  | e :: rest =>
    if e = "" then joinPath rest
    else if joinPath rest = "" then e
    else e ++ "/" ++ joinPath rest

/-- The target appears at the third poll; the second poll reads an elapsed
time of exactly one second. -/
def boundaryWait : WaitEnv :=
  { stat := fun k => decide (k = 2), since := fun k => 500000000 * (k + 1) }

/-- The target never appears; the third poll reads an elapsed time just over one second. -/
def neverSaved : WaitEnv :=
  { stat := fun _ => false, since := fun k => 500000000 * k + 1 }

/-- One second, as a `time.Duration`. -/
def oneSecond : Int := 1000000000

/-- The target path of the concrete runs. -/
def sampleTarget : String := targetPathOf joinPath "/home/user" "2024-01-01_00-00-00"

end OreGo

namespace OreGo

/-! ## The collector: shape of a successful run -/

/-- A successful run of the collector went through all five steps, and its
record is composed from the decoded values. -/
theorem GetScreenshotData_ok_inv (h : Host) (captureAll : Bool) (r : Screenshot)
    (hr : GetScreenshotData h captureAll = .ok r) :
    ∃ rawActive rawMonitors monitors rawClients allClients,
      h.runHyprctl ["activewindow", "-j"] = .ok rawActive ∧
      h.runHyprctl ["monitors", "-j"] = .ok rawMonitors ∧
      h.unmarshalMonitors rawMonitors = .ok monitors ∧
      h.runHyprctl ["clients", "-j"] = .ok rawClients ∧
      h.unmarshalClients rawClients = .ok allClients ∧
      r = composeScreenshot h captureAll (decodeActiveWindow h rawActive)
            (scanMonitors monitors).activeMon
            (scanClients captureAll (scanMonitors monitors).visibleWorkspaceIDs
              (scanMonitors monitors).activeMon.ActiveWorkspace.ID allClients) := by
  unfold GetScreenshotData at hr
  split at hr
  · cases hr
  · rename_i rawActive hA
    split at hr
    · cases hr
    · rename_i rawMonitors hM
      split at hr
      · cases hr
      · rename_i monitors hMs
        split at hr
        · cases hr
        · rename_i rawClients hC
          split at hr
          · cases hr
          · rename_i allClients hCs
            refine ⟨rawActive, rawMonitors, monitors, rawClients, allClients,
              hA, hM, hMs, hC, hCs, ?_⟩
            injection hr with hr
            exact hr.symm

/-- The converse: when all five steps succeed, the collector returns the
composed record. -/
theorem GetScreenshotData_of_steps (h : Host) (captureAll : Bool)
    (rawActive rawMonitors rawClients : Bytes) (monitors : List HyprMonitor)
    (allClients : List HyprWindow)
    (hA : h.runHyprctl ["activewindow", "-j"] = .ok rawActive)
    (hM : h.runHyprctl ["monitors", "-j"] = .ok rawMonitors)
    (hMs : h.unmarshalMonitors rawMonitors = .ok monitors)
    (hC : h.runHyprctl ["clients", "-j"] = .ok rawClients)
    (hCs : h.unmarshalClients rawClients = .ok allClients) :
    GetScreenshotData h captureAll =
      .ok (composeScreenshot h captureAll (decodeActiveWindow h rawActive)
            (scanMonitors monitors).activeMon
            (scanClients captureAll (scanMonitors monitors).visibleWorkspaceIDs
              (scanMonitors monitors).activeMon.ActiveWorkspace.ID allClients)) := by
  unfold GetScreenshotData
  simp only [hA, hM, hMs, hC, hCs]

/-! ## The client loop -/

/-- The client loop, started in any state: the clients appended are the
selected ones in order, and the counter grows by their number. -/
theorem clientFold_spec (captureAll : Bool) (vis : IntBoolMap) (tgt : Int)
    (l : List HyprWindow) (s : ClientScan) :
    (l.foldl (clientStep captureAll vis tgt) s).workspaceClients =
        s.workspaceClients ++ (l.filter (shouldInclude captureAll vis tgt)).map toClient ∧
    (l.foldl (clientStep captureAll vis tgt) s).windowCount =
        s.windowCount + ((l.filter (shouldInclude captureAll vis tgt)).length : Int) := by
  induction l generalizing s with
  | nil => simp
  | cons c rest ih =>
    simp only [List.foldl_cons]
    by_cases hc : shouldInclude captureAll vis tgt c = true
    · have hs : clientStep captureAll vis tgt s c =
          { workspaceClients := s.workspaceClients ++ [toClient c],
            windowCount := s.windowCount + 1, lastWindowTitle := c.Title } := by
        simp [clientStep, hc]
      rw [hs]
      obtain ⟨h1, h2⟩ := ih ⟨s.workspaceClients ++ [toClient c], s.windowCount + 1, c.Title⟩
      refine ⟨?_, ?_⟩
      · rw [h1]; simp [List.filter_cons, hc]
      · rw [h2]; simp [List.filter_cons, hc]; ring
    · have hs : clientStep captureAll vis tgt s c = s := by
        simp [clientStep, hc]
      rw [hs]
      obtain ⟨h1, h2⟩ := ih s
      refine ⟨?_, ?_⟩
      · rw [h1]; simp [List.filter_cons, hc]
      · rw [h2]; simp [List.filter_cons, hc]

/-- The clients collected by the loop. -/
theorem scanClients_clients (captureAll : Bool) (vis : IntBoolMap) (tgt : Int)
    (l : List HyprWindow) :
    (scanClients captureAll vis tgt l).workspaceClients =
      (l.filter (shouldInclude captureAll vis tgt)).map toClient := by
  have := (clientFold_spec captureAll vis tgt l
    { workspaceClients := [], windowCount := 0, lastWindowTitle := "" }).1
  simpa [scanClients] using this

/-- The counter of the loop is the number of clients collected. -/
theorem scanClients_count (captureAll : Bool) (vis : IntBoolMap) (tgt : Int)
    (l : List HyprWindow) :
    (scanClients captureAll vis tgt l).windowCount =
      ((scanClients captureAll vis tgt l).workspaceClients.length : Int) := by
  have := (clientFold_spec captureAll vis tgt l
    { workspaceClients := [], windowCount := 0, lastWindowTitle := "" }).2
  rw [scanClients_clients]
  simpa [scanClients] using this

/-! ## The monitor loop -/

/-- Reading the visible set after the loop, started in any state. -/
theorem monitorFold_visible (monitors : List HyprMonitor) (s : MonitorScan) (k : Int) :
    (monitors.foldl monitorStep s).visibleWorkspaceIDs.get k = true ↔
      (s.visibleWorkspaceIDs.get k = true ∨ ∃ m ∈ monitors, m.ActiveWorkspace.ID = k) := by
  induction monitors generalizing s with
  | nil => simp
  | cons m rest ih =>
    simp only [List.foldl_cons]
    rw [ih]
    have hv : (monitorStep s m).visibleWorkspaceIDs.get k = true ↔
        (m.ActiveWorkspace.ID = k ∨ s.visibleWorkspaceIDs.get k = true) := by
      unfold monitorStep
      by_cases hf : m.Focused = true <;> by_cases hk : m.ActiveWorkspace.ID = k <;>
        simp [hf, hk, IntBoolMap.set, IntBoolMap.get]
    rw [hv]
    constructor
    · rintro ((h1 | h1) | ⟨x, hx, hxk⟩)
      · exact Or.inr ⟨m, by simp, h1⟩
      · exact Or.inl h1
      · exact Or.inr ⟨x, by simp [hx], hxk⟩
    · rintro (h1 | ⟨x, hx, hxk⟩)
      · exact Or.inl (Or.inr h1)
      · rcases List.mem_cons.mp hx with rfl | hx
        · exact Or.inl (Or.inl hxk)
        · exact Or.inr ⟨x, hx, hxk⟩

/-- The visible set of `scanMonitors` holds exactly the active workspace ids of the monitors. -/
theorem scanMonitors_visible (monitors : List HyprMonitor) (k : Int) :
    (scanMonitors monitors).visibleWorkspaceIDs.get k = true ↔
      ∃ m ∈ monitors, m.ActiveWorkspace.ID = k := by
  have h := monitorFold_visible monitors
    { activeMon := HyprMonitor.zero, visibleWorkspaceIDs := [], foundMon := false } k
  simp only [IntBoolMap.get, Bool.false_eq_true, false_or] at h
  dsimp only [scanMonitors]
  split
  · simpa using h
  · simpa using h

/-- A loop over monitors none of which is focused changes neither the chosen
monitor nor the flag. -/
theorem monitorFold_unfocused (monitors : List HyprMonitor) (s : MonitorScan)
    (hno : ∀ x ∈ monitors, x.Focused = false) :
    (monitors.foldl monitorStep s).activeMon = s.activeMon ∧
    (monitors.foldl monitorStep s).foundMon = s.foundMon := by
  induction monitors generalizing s with
  | nil => simp
  | cons m rest ih =>
    simp only [List.foldl_cons]
    have hm : m.Focused = false := hno m (by simp)
    have hs : (monitorStep s m).activeMon = s.activeMon ∧
        (monitorStep s m).foundMon = s.foundMon := by
      simp [monitorStep, hm]
    obtain ⟨h1, h2⟩ := ih (monitorStep s m) (fun x hx => hno x (by simp [hx]))
    exact ⟨h1.trans hs.1, h2.trans hs.2⟩

/-- The loop picks the last focused monitor. -/
theorem monitorFold_last_focused (pre post : List HyprMonitor) (m : HyprMonitor)
    (s : MonitorScan) (hm : m.Focused = true) (hpost : ∀ x ∈ post, x.Focused = false) :
    ((pre ++ m :: post).foldl monitorStep s).activeMon = m ∧
    ((pre ++ m :: post).foldl monitorStep s).foundMon = true := by
  rw [List.foldl_append, List.foldl_cons]
  obtain ⟨h1, h2⟩ := monitorFold_unfocused post (monitorStep (pre.foldl monitorStep s) m) hpost
  rw [h1, h2]
  simp [monitorStep, hm]

/-- The monitor chosen by `scanMonitors`: the last focused one. -/
theorem scanMonitors_focused (pre post : List HyprMonitor) (m : HyprMonitor)
    (hm : m.Focused = true) (hpost : ∀ x ∈ post, x.Focused = false) :
    (scanMonitors (pre ++ m :: post)).activeMon = m := by
  obtain ⟨h1, h2⟩ := monitorFold_last_focused pre post m
    { activeMon := HyprMonitor.zero, visibleWorkspaceIDs := [], foundMon := false } hm hpost
  dsimp only [scanMonitors]
  simp only [h2]
  simpa using h1

/-- The monitor chosen by `scanMonitors` when none is focused: the first. -/
theorem scanMonitors_fallback (m : HyprMonitor) (rest : List HyprMonitor)
    (hno : ∀ x ∈ m :: rest, x.Focused = false) :
    (scanMonitors (m :: rest)).activeMon = m := by
  obtain ⟨_, h2⟩ := monitorFold_unfocused (m :: rest)
    { activeMon := HyprMonitor.zero, visibleWorkspaceIDs := [], foundMon := false } hno
  dsimp only [scanMonitors]
  simp only [h2]
  simp

/-- With no monitor at all the chosen monitor is the zero value. -/
theorem scanMonitors_nil : (scanMonitors []).activeMon = HyprMonitor.zero := by
  simp [scanMonitors]

end OreGo

namespace OreGo

/-! ## Claims about the collector -/

/-- C1: on every input on which `GetScreenshotData` succeeds, in both capture
modes, the returned record has `Workspace.Windows` equal to the length of
`Clients`. -/
theorem windows_eq_len_clients (h : Host) (captureAll : Bool) (r : Screenshot)
    (hr : GetScreenshotData h captureAll = .ok r) :
    r.Workspace.Windows = (r.Clients.length : Int) := by
  obtain ⟨rawA, rawM, mons, rawC, cl, -, -, -, -, -, rfl⟩ :=
    GetScreenshotData_ok_inv h captureAll r hr
  exact scanClients_count captureAll _ _ cl

/-- C1 at scenario 2: three windows counted, three clients recorded. -/
theorem windows_eq_len_clients_witness :
    GetScreenshotData scenario2 true = .ok scenario2Record ∧
    scenario2Record.Workspace.Windows = (scenario2Record.Clients.length : Int) :=
  ⟨rfl, windows_eq_len_clients scenario2 true scenario2Record rfl⟩

/-- C2: in single-workspace mode every client of the returned record is on the
record's workspace; in all-visible mode every client is on the active workspace
of some monitor of the monitors query. -/
theorem clients_on_captured_workspaces (h : Host) (captureAll : Bool) (r : Screenshot)
    (rawMonitors : Bytes) (monitors : List HyprMonitor)
    (hM : h.runHyprctl ["monitors", "-j"] = .ok rawMonitors)
    (hMs : h.unmarshalMonitors rawMonitors = .ok monitors)
    (hr : GetScreenshotData h captureAll = .ok r) :
    (captureAll = false → ∀ c ∈ r.Clients, c.WorkspaceID = r.Workspace.ID) ∧
    (captureAll = true →
      ∀ c ∈ r.Clients, ∃ m ∈ monitors, m.ActiveWorkspace.ID = c.WorkspaceID) := by
  obtain ⟨rawA, rawM, mons, rawC, cl, -, hM1, hMs1, -, -, rfl⟩ :=
    GetScreenshotData_ok_inv h captureAll r hr
  rw [hM] at hM1
  cases hM1
  rw [hMs] at hMs1
  cases hMs1
  refine ⟨?_, ?_⟩
  · intro hcap c hc
    subst hcap
    simp only [composeScreenshot, scanClients_clients, List.mem_map, List.mem_filter] at hc
    obtain ⟨w, ⟨-, hw⟩, rfl⟩ := hc
    simpa [shouldInclude, toClient, composeScreenshot] using hw
  · intro hcap c hc
    subst hcap
    simp only [composeScreenshot, scanClients_clients, List.mem_map, List.mem_filter] at hc
    obtain ⟨w, ⟨-, hw⟩, rfl⟩ := hc
    have hv : (scanMonitors monitors).visibleWorkspaceIDs.get w.Workspace.ID = true := by
      simpa [shouldInclude] using hw
    exact (scanMonitors_visible monitors w.Workspace.ID).mp hv

/-- C2 at scenario 2: every recorded client is on workspace 2 or 5, the active
workspaces of the two monitors. -/
theorem clients_on_captured_workspaces_witness :
    GetScreenshotData scenario2 true = .ok scenario2Record ∧
    ∀ c ∈ scenario2Record.Clients,
      ∃ m ∈ [monitorDP1, monitorDP2], m.ActiveWorkspace.ID = c.WorkspaceID :=
  ⟨rfl, (clients_on_captured_workspaces scenario2 true scenario2Record [91, 109, 93]
    [monitorDP1, monitorDP2] rfl rfl rfl).2 rfl⟩

/-- C3: the clients of the returned record are the input clients that satisfy
the selection test (workspace among the monitors' active workspaces in
all-visible mode, workspace equal to the record's workspace otherwise), in input
order, each copied field for field. -/
theorem clients_eq_filter_map (h : Host) (captureAll : Bool) (r : Screenshot)
    (rawMonitors rawClients : Bytes) (monitors : List HyprMonitor)
    (allClients : List HyprWindow)
    (hM : h.runHyprctl ["monitors", "-j"] = .ok rawMonitors)
    (hMs : h.unmarshalMonitors rawMonitors = .ok monitors)
    (hC : h.runHyprctl ["clients", "-j"] = .ok rawClients)
    (hCs : h.unmarshalClients rawClients = .ok allClients)
    (hr : GetScreenshotData h captureAll = .ok r) :
    r.Clients =
      (allClients.filter (fun c =>
          if captureAll then monitors.any (fun m => m.ActiveWorkspace.ID == c.Workspace.ID)
          else c.Workspace.ID == r.Workspace.ID)).map
        (fun c => { Address := c.Address, Class := c.Class, Title := c.Title, Pid := c.Pid,
                    WorkspaceID := c.Workspace.ID }) := by
  obtain ⟨rawA, rawM, mons, rawC, cl, -, hM1, hMs1, hC1, hCs1, rfl⟩ :=
    GetScreenshotData_ok_inv h captureAll r hr
  rw [hM] at hM1
  cases hM1
  rw [hMs] at hMs1
  cases hMs1
  rw [hC] at hC1
  cases hC1
  rw [hCs] at hCs1
  cases hCs1
  simp only [composeScreenshot, scanClients_clients]
  have hfilter : allClients.filter (shouldInclude captureAll
        (scanMonitors monitors).visibleWorkspaceIDs
        (scanMonitors monitors).activeMon.ActiveWorkspace.ID) =
      allClients.filter (fun c =>
          if captureAll then monitors.any (fun m => m.ActiveWorkspace.ID == c.Workspace.ID)
          else c.Workspace.ID == (scanMonitors monitors).activeMon.ActiveWorkspace.ID) := by
    apply List.filter_congr
    intro c _
    cases captureAll with
    | false =>
      rw [Bool.eq_iff_iff]
      simp [shouldInclude]
    | true =>
      have hv := scanMonitors_visible monitors c.Workspace.ID
      rw [Bool.eq_iff_iff]
      simp only [shouldInclude, if_true, Bool.if_true_right, Bool.or_false, List.any_eq_true,
        beq_iff_eq, Bool.if_false_right, Bool.and_true]
      simpa using hv
  rw [hfilter]
  rfl

/-- C3 at scenario 1: the clients recorded are `0xA` and `0xB`, in that order. -/
theorem clients_eq_filter_map_witness :
    GetScreenshotData scenario1 false = .ok scenario1Record ∧
    scenario1Record.Clients.map (fun c => c.Address) = ["0xA", "0xB"] ∧
    scenario1Record.Clients =
      (scenarioClients.filter (fun c =>
          if false then [monitorDP1].any (fun m => m.ActiveWorkspace.ID == c.Workspace.ID)
          else c.Workspace.ID == scenario1Record.Workspace.ID)).map
        (fun c => { Address := c.Address, Class := c.Class, Title := c.Title, Pid := c.Pid,
                    WorkspaceID := c.Workspace.ID }) :=
  ⟨rfl, rfl, clients_eq_filter_map scenario1 false scenario1Record [91, 109, 93] [91, 99, 93]
    [monitorDP1] scenarioClients rfl rfl rfl rfl rfl⟩

end OreGo

namespace OreGo

/-- C4: `HasFullscreen` of the returned record is true exactly when the active
window has `fullscreen > 0` and lies on the record's workspace, which is the
active workspace of the chosen monitor; the active window is the decoded output
of the query when that output is non-empty and not the empty object, and
`HasFullscreen` is false when the query printed the empty object or nothing. -/
theorem has_fullscreen_iff (h : Host) (captureAll : Bool) (r : Screenshot)
    (rawActive rawMonitors : Bytes) (monitors : List HyprMonitor)
    (hA : h.runHyprctl ["activewindow", "-j"] = .ok rawActive)
    (hM : h.runHyprctl ["monitors", "-j"] = .ok rawMonitors)
    (hMs : h.unmarshalMonitors rawMonitors = .ok monitors)
    (hr : GetScreenshotData h captureAll = .ok r) :
    (r.Workspace.HasFullscreen = true ↔
      ((decodeActiveWindow h rawActive).Fullscreen > 0 ∧
        (decodeActiveWindow h rawActive).Workspace.ID = r.Workspace.ID)) ∧
    r.Workspace.ID = (scanMonitors monitors).activeMon.ActiveWorkspace.ID ∧
    r.ActiveWindow.State.Fullscreen = (decodeActiveWindow h rawActive).Fullscreen ∧
    (rawActive ≠ [] → rawActive ≠ emptyObject →
      decodeActiveWindow h rawActive = h.unmarshalWindow rawActive) ∧
    (rawActive = emptyObject → r.Workspace.HasFullscreen = false) ∧
    (rawActive = [] → r.Workspace.HasFullscreen = false) := by
  obtain ⟨rawA, rawM, mons, rawC, cl, hA1, hM1, hMs1, -, -, rfl⟩ :=
    GetScreenshotData_ok_inv h captureAll r hr
  rw [hA] at hA1
  cases hA1
  rw [hM] at hM1
  cases hM1
  rw [hMs] at hMs1
  cases hMs1
  refine ⟨?_, rfl, rfl, ?_, ?_, ?_⟩
  · simp [composeScreenshot]
  · intro h1 h2
    have hlen : rawActive.length > 0 := List.length_pos.mpr h1
    simp [decodeActiveWindow, hlen, h2]
  · intro h1
    simp [composeScreenshot, decodeActiveWindow, h1, HyprWindow.zero]
  · intro h1
    simp [composeScreenshot, decodeActiveWindow, h1, HyprWindow.zero]

/-- C4 on a host whose active-window query prints the empty object: the record
has `HasFullscreen = false`, although the decoder would have produced a
fullscreen window on the captured workspace. -/
theorem has_fullscreen_iff_witness :
    GetScreenshotData noActiveWindow false = .ok noActiveWindowRecord ∧
    (noActiveWindow.unmarshalWindow emptyObject).Fullscreen = 2 ∧
    noActiveWindowRecord.Workspace.HasFullscreen = false :=
  ⟨rfl, rfl, (has_fullscreen_iff noActiveWindow false noActiveWindowRecord emptyObject
    [91, 109, 93] [monitorDP1] rfl rfl rfl rfl).2.2.2.2.1 rfl⟩

/-- C5, as the code stands: a monitors output that parses to the empty array
does not abort the collector.  On `noMonitors` it returns a record on
workspace 0 with an empty monitor name. -/
theorem empty_monitors_returns_record :
    noMonitors.runHyprctl ["monitors", "-j"] = .ok [91, 109, 93] ∧
    noMonitors.unmarshalMonitors [91, 109, 93] = .ok [] ∧
    GetScreenshotData noMonitors false = .ok noMonitorsRecord :=
  ⟨rfl, rfl, rfl⟩

/-- C5, amended: when the monitors output fails to parse, `GetScreenshotData`
returns an error; when it parses to the empty array, the collector goes on with
the zero-valued monitor and an empty visible set, and returns the record
composed from them as soon as the other queries succeed. -/
theorem monitors_parse_failure_aborts (h : Host) (captureAll : Bool) (rawMonitors : Bytes)
    (hM : h.runHyprctl ["monitors", "-j"] = .ok rawMonitors) :
    (∀ e, h.unmarshalMonitors rawMonitors = .error e →
      ∃ msg, GetScreenshotData h captureAll = .error msg) ∧
    (h.unmarshalMonitors rawMonitors = .ok [] →
      ∀ rawActive rawClients allClients,
        h.runHyprctl ["activewindow", "-j"] = .ok rawActive →
        h.runHyprctl ["clients", "-j"] = .ok rawClients →
        h.unmarshalClients rawClients = .ok allClients →
        GetScreenshotData h captureAll =
          .ok (composeScreenshot h captureAll (decodeActiveWindow h rawActive)
                HyprMonitor.zero (scanClients captureAll [] 0 allClients))) := by
  refine ⟨?_, ?_⟩
  · intro e he
    cases hres : GetScreenshotData h captureAll with
    | error msg => exact ⟨msg, rfl⟩
    | ok r =>
      obtain ⟨rawA, rawM, mons, rawC, cl, -, hM1, hMs1, -, -, -⟩ :=
        GetScreenshotData_ok_inv h captureAll r hres
      rw [hM] at hM1
      cases hM1
      rw [he] at hMs1
      cases hMs1
  · intro hnil rawActive rawClients allClients hA hC hCs
    rw [GetScreenshotData_of_steps h captureAll rawActive rawMonitors rawClients []
      allClients hA hM hnil hC hCs]
    rfl

/-- C5 amended, on a host whose monitors output does not parse: the collector
returns the parse error. -/
theorem monitors_parse_failure_aborts_witness :
    badMonitors.runHyprctl ["monitors", "-j"] = .ok [91, 109, 93] ∧
    badMonitors.unmarshalMonitors [91, 109, 93] = .error "unexpected end of JSON input" ∧
    GetScreenshotData badMonitors true =
      .error "failed to parse monitors: unexpected end of JSON input" ∧
    ∃ msg, GetScreenshotData badMonitors true = .error msg :=
  ⟨rfl, rfl, rfl,
    (monitors_parse_failure_aborts badMonitors true [91, 109, 93] rfl).1
      "unexpected end of JSON input" rfl⟩

/-- C6: on a non-empty monitors array the chosen monitor is the focused one
(the last one in array order, should several be focused), and the first
monitor when none is focused; the record's workspace id and name are those of
that monitor's active workspace, and in single-workspace mode its monitor name
is that monitor's name. -/
theorem active_monitor_choice (h : Host) (captureAll : Bool) (r : Screenshot)
    (rawMonitors : Bytes) (monitors : List HyprMonitor)
    (hM : h.runHyprctl ["monitors", "-j"] = .ok rawMonitors)
    (hMs : h.unmarshalMonitors rawMonitors = .ok monitors)
    (hr : GetScreenshotData h captureAll = .ok r) :
    (∀ pre m post, monitors = pre ++ m :: post → m.Focused = true →
      (∀ x ∈ post, x.Focused = false) →
        (scanMonitors monitors).activeMon = m ∧
        r.Workspace.ID = m.ActiveWorkspace.ID ∧ r.Workspace.Name = m.ActiveWorkspace.Name ∧
        (captureAll = false → r.Workspace.Monitor = m.Name)) ∧
    (∀ m rest, monitors = m :: rest → (∀ x ∈ monitors, x.Focused = false) →
        (scanMonitors monitors).activeMon = m ∧
        r.Workspace.ID = m.ActiveWorkspace.ID ∧ r.Workspace.Name = m.ActiveWorkspace.Name ∧
        (captureAll = false → r.Workspace.Monitor = m.Name)) := by
  obtain ⟨rawA, rawM, mons, rawC, cl, -, hM1, hMs1, -, -, rfl⟩ :=
    GetScreenshotData_ok_inv h captureAll r hr
  rw [hM] at hM1
  cases hM1
  rw [hMs] at hMs1
  cases hMs1
  have key : ∀ m, (scanMonitors monitors).activeMon = m →
      (scanMonitors monitors).activeMon = m ∧
      (composeScreenshot h captureAll (decodeActiveWindow h rawA)
        (scanMonitors monitors).activeMon
        (scanClients captureAll (scanMonitors monitors).visibleWorkspaceIDs
          (scanMonitors monitors).activeMon.ActiveWorkspace.ID cl)).Workspace.ID =
        m.ActiveWorkspace.ID ∧
      (composeScreenshot h captureAll (decodeActiveWindow h rawA)
        (scanMonitors monitors).activeMon
        (scanClients captureAll (scanMonitors monitors).visibleWorkspaceIDs
          (scanMonitors monitors).activeMon.ActiveWorkspace.ID cl)).Workspace.Name =
        m.ActiveWorkspace.Name ∧
      (captureAll = false →
        (composeScreenshot h captureAll (decodeActiveWindow h rawA)
          (scanMonitors monitors).activeMon
          (scanClients captureAll (scanMonitors monitors).visibleWorkspaceIDs
            (scanMonitors monitors).activeMon.ActiveWorkspace.ID cl)).Workspace.Monitor =
          m.Name) := by
    intro m hm
    refine ⟨hm, ?_, ?_, ?_⟩
    · simp [composeScreenshot, hm]
    · simp [composeScreenshot, hm]
    · intro hcap
      simp [composeScreenshot, hm, hcap]
  refine ⟨?_, ?_⟩
  · intro pre m post hmons hfoc hpost
    apply key
    rw [hmons]
    exact scanMonitors_focused pre post m hfoc hpost
  · intro m rest hmons hno
    apply key
    rw [hmons]
    rw [hmons] at hno
    exact scanMonitors_fallback m rest hno

/-- C6 with no focused monitor (scenario 3): the collector succeeds and the
record carries workspace 2, `code`, of the first monitor `DP-1`. -/
theorem active_monitor_choice_witness :
    GetScreenshotData scenario3 false = .ok scenario1Record ∧
    scenario1Record.Workspace.ID = 2 ∧ scenario1Record.Workspace.Name = "code" ∧
    scenario1Record.Workspace.Monitor = "DP-1" :=
  have hw := (active_monitor_choice scenario3 false scenario1Record [91, 109, 93]
    [{ monitorDP1 with Focused := false }, { monitorDP2 with Focused := false }]
    rfl rfl rfl).2 { monitorDP1 with Focused := false } [{ monitorDP2 with Focused := false }]
    rfl (by decide)
  ⟨rfl, hw.2.1, hw.2.2.1, hw.2.2.2 rfl⟩

/-- C10: for the record returned by the collector run with the flag `all`, the
grabber arguments are `-o`, the monitor and the temporary path exactly when the
record's monitor is neither empty nor `all-visible`, and the temporary path
alone otherwise; the test on `all` never decides. -/
theorem grim_args_by_monitor (h : Host) (all : Bool) (r : Screenshot) (tmpPath : String)
    (hr : GetScreenshotData h all = .ok r) :
    grimArgs all r.Workspace.Monitor tmpPath =
      (if r.Workspace.Monitor ≠ "" ∧ r.Workspace.Monitor ≠ "all-visible"
        then ["-o", r.Workspace.Monitor, tmpPath] else [tmpPath]) ∧
    (all = true → r.Workspace.Monitor = "all-visible") := by
  obtain ⟨rawA, rawM, mons, rawC, cl, -, -, -, -, -, rfl⟩ :=
    GetScreenshotData_ok_inv h all r hr
  cases all with
  | true => simp [grimArgs, composeScreenshot]
  | false =>
    refine ⟨?_, by simp⟩
    simp only [grimArgs, composeScreenshot]
    by_cases h1 : (scanMonitors mons).activeMon.Name = ""
    · simp [h1]
    · by_cases h2 : (scanMonitors mons).activeMon.Name = "all-visible"
      · simp [h2]
      · simp [h1, h2]

/-- C10 at scenarios 1 and 2: a monitor name in single-workspace mode, the bare
path in all-visible mode. -/
theorem grim_args_by_monitor_witness :
    GetScreenshotData scenario1 false = .ok scenario1Record ∧
    grimArgs false scenario1Record.Workspace.Monitor "/tmp/orego-raw-1.png" =
      ["-o", "DP-1", "/tmp/orego-raw-1.png"] ∧
    grimArgs true scenario2Record.Workspace.Monitor "/tmp/orego-raw-1.png" =
      ["/tmp/orego-raw-1.png"] :=
  ⟨rfl,
   (grim_args_by_monitor scenario1 false scenario1Record "/tmp/orego-raw-1.png" rfl).1.trans
     (by decide),
   (grim_args_by_monitor scenario2 true scenario2Record "/tmp/orego-raw-1.png" rfl).1.trans
     (by decide)⟩

end OreGo

namespace OreGo

/-! ## Claims about the store -/

/-- The client inserts leave table `screenshots` as it is. -/
theorem insertClients_screenshots (f : SaveFaults) ( fk : Bool) (id : Int) (l : List Client)
    (i : Nat) (tx tx2 : Database) (hok : insertClients f fk id i tx l = .ok tx2) :
    tx2.screenshots = tx.screenshots := by
  induction l generalizing i tx with
  | nil =>
    simp only [insertClients] at hok
    cases hok
    rfl
  | cons c rest ih =>
    simp only [insertClients] at hok
    split at hok
    · cases hok
    · rename_i tx1 hstep
      have h1 := ih (i + 1) tx1 hok
      rw [h1]
      unfold execInsertClient at hstep
      split at hstep
      · cases hstep
      · split at hstep
        · cases hstep
        · split at hstep
          · cases hstep
          · cases hstep
            rfl

/-- C7, as the code stands: the insert of the second client fails, `Save`
returns the error and the store is as before, yet the record's id has gone
from 0 to 1, the id of the row that was rolled back. -/
theorem save_failure_changes_id :
    (Store.Save secondClientFails openedStore confirmedRecord).err =
      some "failed to insert client: disk I/O error" ∧
    (Store.Save secondClientFails openedStore confirmedRecord).store = openedStore ∧
    confirmedRecord.ID = 0 ∧
    (Store.Save secondClientFails openedStore confirmedRecord).sc.ID = 1 := by
  decide

/-- C7, amended: after `Save` returns, the record's id is the id of the
inserted screenshot row as soon as `Begin`, the screenshot insert and
`LastInsertId` have succeeded, whatever the client inserts and the commit do
afterwards; the record is untouched when one of those three steps fails.  A
`Save` that returns no error has committed a row with the record's id, and a
`Save` that returns an error leaves the store as it was. -/
theorem save_sets_id_after_insert (f : SaveFaults) (s : Store) (sc : Screenshot) :
    (∀ tx id, f.begin = none → execInsertScreenshot f.insertScreenshot s.db sc = .ok (tx, id) →
      f.lastInsertId = none →
        (Store.Save f s sc).sc = { sc with ID := id } ∧ id = s.db.seqScreenshots + 1) ∧
    ((f.begin ≠ none ∨ (∃ e, execInsertScreenshot f.insertScreenshot s.db sc = .error e) ∨
        f.lastInsertId ≠ none) →
      (Store.Save f s sc).sc = sc ∧ (Store.Save f s sc).err ≠ none) ∧
    ((Store.Save f s sc).err = none →
      (Store.Save f s sc).sc.ID = s.db.seqScreenshots + 1 ∧
      ∃ rows, (Store.Save f s sc).store.db.screenshots = some rows ∧
        ∃ row ∈ rows, row.id = (Store.Save f s sc).sc.ID ∧ row.file_path = sc.FilePath) ∧
    ((Store.Save f s sc).err ≠ none → (Store.Save f s sc).store = s) := by
  have hid : ∀ tx id, execInsertScreenshot f.insertScreenshot s.db sc = .ok (tx, id) →
      id = s.db.seqScreenshots + 1 ∧
      ∃ rows, tx.screenshots = some rows ∧
        ∃ row ∈ rows, row.id = id ∧ row.file_path = sc.FilePath := by
    intro tx id hx
    unfold execInsertScreenshot at hx
    split at hx
    · cases hx
    · split at hx
      · cases hx
      · rename_i rows0 _
        cases hx
        exact ⟨rfl, _, rfl, _, List.mem_append_right _ (List.mem_singleton.mpr rfl), rfl, rfl⟩
  refine ⟨?_, ?_, ?_, ?_⟩
  · intro tx id hb hx hl
    refine ⟨?_, (hid tx id hx).1⟩
    unfold Store.Save
    simp only [hb, hx, hl]
    split
    · rfl
    · split <;> rfl
  · intro hfail
    cases hb : f.begin with
    | some e => simp [Store.Save, hb]
    | none =>
      cases hx : execInsertScreenshot f.insertScreenshot s.db sc with
      | error e => simp [Store.Save, hb, hx]
      | ok p =>
        obtain ⟨tx, id⟩ := p
        cases hl : f.lastInsertId with
        | some e => simp [Store.Save, hb, hx, hl]
        | none =>
          exfalso
          rcases hfail with h1 | ⟨e, h1⟩ | h1
          · exact h1 hb
          · rw [hx] at h1
            cases h1
          · exact h1 hl
  · intro herr
    cases hb : f.begin with
    | some e => simp [Store.Save, hb] at herr
    | none =>
      cases hx : execInsertScreenshot f.insertScreenshot s.db sc with
      | error e => simp [Store.Save, hb, hx] at herr
      | ok p =>
        obtain ⟨tx, id⟩ := p
        cases hl : f.lastInsertId with
        | some e => simp [Store.Save, hb, hx, hl] at herr
        | none =>
          cases hi : insertClients f s.foreignKeys id 0 tx sc.Clients with
          | error e => simp [Store.Save, hb, hx, hl, hi] at herr
          | ok tx2 =>
            cases hc : f.commit with
            | some e => simp [Store.Save, hb, hx, hl, hi, hc] at herr
            | none =>
              obtain ⟨h1, rows, h2, h3⟩ := hid tx id hx
              have h4 := insertClients_screenshots f s.foreignKeys id sc.Clients 0 tx tx2 hi
              simp only [Store.Save, hb, hx, hl, hi, hc]
              exact ⟨h1, rows, h4.trans h2, h3⟩
  · intro herr
    cases hb : f.begin with
    | some e => simp [Store.Save, hb]
    | none =>
      cases hx : execInsertScreenshot f.insertScreenshot s.db sc with
      | error e => simp [Store.Save, hb, hx]
      | ok p =>
        obtain ⟨tx, id⟩ := p
        cases hl : f.lastInsertId with
        | some e => simp [Store.Save, hb, hx, hl]
        | none =>
          cases hi : insertClients f s.foreignKeys id 0 tx sc.Clients with
          | error e => simp [Store.Save, hb, hx, hl, hi]
          | ok tx2 =>
            cases hc : f.commit with
            | some e => simp [Store.Save, hb, hx, hl, hi, hc]
            | none => simp [Store.Save, hb, hx, hl, hi, hc] at herr

/-- C7 amended, on a successful save and on one whose second client insert
fails: in both the record's id is 1 afterwards. -/
theorem save_sets_id_after_insert_witness :
    (Store.Save SaveFaults.noFault openedStore confirmedRecord).err = none ∧
    (Store.Save SaveFaults.noFault openedStore confirmedRecord).sc.ID = 0 + 1 ∧
    (Store.Save secondClientFails openedStore confirmedRecord).store = openedStore :=
  ⟨by decide,
   ((save_sets_id_after_insert SaveFaults.noFault openedStore confirmedRecord).2.2.1
      (by decide)).1,
   (save_sets_id_after_insert secondClientFails openedStore confirmedRecord).2.2.2
      (by decide)⟩

/-- On a connection that enforces foreign keys, deleting a screenshot row that
exists leaves no client row that references it. -/
theorem delete_cascades_when_enforced (s : Store) (id : Int) (rows : List ScreenshotRow)
    (hfk : s.foreignKeys = true) (hrows : s.db.screenshots = some rows)
    (hmem : ∃ r ∈ rows, r.id = id) :
    (Store.DeleteScreenshot none s id).1.clientRowsOf id = [] := by
  obtain ⟨r, hr, hrid⟩ := hmem
  have hany : rows.any (fun r => r.id == id) = true := by
    simp only [List.any_eq_true, beq_iff_eq]
    exact ⟨r, hr, hrid⟩
  simp only [Store.DeleteScreenshot, hrows, hfk, hany, Bool.and_self, if_true,
    Store.clientRowsOf]
  cases s.db.clients with
  | none => simp
  | some cs =>
    simp only [Option.map_some', Option.getD_some, List.filter_filter]
    rw [List.filter_eq_nil_iff]
    intro c _
    simp

/-- Deleting an id that has no row changes no table and returns no error, as
long as the statement itself runs. -/
theorem delete_missing_id (s : Store) (id : Int) (rows : List ScreenshotRow)
    (hrows : s.db.screenshots = some rows) (hmiss : ∀ r ∈ rows, r.id ≠ id) :
    Store.DeleteScreenshot none s id = (s, none) := by
  have hany : rows.any (fun r => r.id == id) = false := by
    rw [Bool.eq_false_iff]
    simp only [ne_eq, List.any_eq_true, beq_iff_eq, not_exists, not_and]
    exact hmiss
  have hfilter : rows.filter (fun r => r.id != id) = rows := by
    rw [List.filter_eq_self]
    intro r hr
    simpa using hmiss r hr
  simp only [Store.DeleteScreenshot, hrows, hany, Bool.and_false, Bool.false_eq_true,
    if_false, hfilter]
  cases s with
  | mk db fk =>
    cases db with
    | mk a b c d =>
      simp only at hrows
      subst hrows
      rfl

/-- C8, as the code stands: a store opened by `New` on a new database file, a
record with two clients saved into it with id 1, then `DeleteScreenshot 1`:
the screenshot row is gone, no error is returned, and both client rows with
`screenshot_id = 1` are still in table `clients`.  The connection opened by
`New` does not enforce foreign keys, so `ON DELETE CASCADE` does not run. -/
theorem delete_leaves_client_rows :
    New plainOpen Database.fresh = .ok openedStore ∧
    (Store.Save SaveFaults.noFault openedStore confirmedRecord).err = none ∧
    (Store.Save SaveFaults.noFault openedStore confirmedRecord).sc.ID = 1 ∧
    (Store.DeleteScreenshot none
      (Store.Save SaveFaults.noFault openedStore confirmedRecord).store 1).2 = none ∧
    (Store.DeleteScreenshot none
      (Store.Save SaveFaults.noFault openedStore confirmedRecord).store 1).1.db.screenshots =
        some [] ∧
    ((Store.DeleteScreenshot none
      (Store.Save SaveFaults.noFault openedStore confirmedRecord).store 1).1.clientRowsOf
        1).map (fun c => c.address) = ["0xA", "0xB"] := by
  refine ⟨rfl, ?_, ?_, ?_, ?_, ?_⟩ <;> decide

end OreGo

namespace OreGo

/-! ## Claims about the list query -/

/-- The three texts and argument lists that `listQuery` can build. -/
theorem listQuery_cases (limit : Int) (filterField filterValue : String) :
    (filterField = "app" ∧ filterValue ≠ "" ∧
      listQuery limit filterField filterValue =
        (selectScreenshots ++ " WHERE active_window_class LIKE ?" ++ " ORDER BY id DESC LIMIT ?",
          [SqlArg.text ("%" ++ filterValue ++ "%"), SqlArg.int limit])) ∨
    (filterField = "title" ∧ filterValue ≠ "" ∧
      listQuery limit filterField filterValue =
        (selectScreenshots ++ " WHERE active_window_title LIKE ?" ++ " ORDER BY id DESC LIMIT ?",
          [SqlArg.text ("%" ++ filterValue ++ "%"), SqlArg.int limit])) ∨
    (((filterField ≠ "app" ∧ filterField ≠ "title") ∨ filterValue = "") ∧
      listQuery limit filterField filterValue =
        (selectScreenshots ++ " ORDER BY id DESC LIMIT ?", [SqlArg.int limit])) := by
  have e1 : " WHERE " ++ "active_window_class" ++ " LIKE ?" =
      " WHERE active_window_class LIKE ?" := by decide
  have e2 : " WHERE " ++ "active_window_title" ++ " LIKE ?" =
      " WHERE active_window_title LIKE ?" := by decide
  have hne : ("title" == "app") = false := by decide
  by_cases hv : filterValue = ""
  · refine Or.inr (Or.inr ⟨Or.inr hv, ?_⟩)
    subst hv
    unfold listQuery
    cases fieldMap.lookup filterField <;> simp
  · by_cases ha : filterField = "app"
    · refine Or.inl ⟨ha, hv, ?_⟩
      subst ha
      simp [listQuery, fieldMap, List.lookup, hv, e1]
    · by_cases ht : filterField = "title"
      · refine Or.inr (Or.inl ⟨ht, hv, ?_⟩)
        subst ht
        simp [listQuery, fieldMap, List.lookup, hv, e2, hne]
      · refine Or.inr (Or.inr ⟨Or.inl ⟨ha, ht⟩, ?_⟩)
        have h1 : (filterField == "app") = false := by simpa using ha
        have h2 : (filterField == "title") = false := by simpa using ht
        simp [listQuery, fieldMap, List.lookup, h1, h2]

/-- C9: for a filter field that is neither `app` nor `title`, `ListScreenshots`
builds the SQL text and the bound arguments it builds for the empty field, and
so returns the same result on the same database; for all inputs the SQL text is
one of three fixed strings, whose only columns after `WHERE` are
`active_window_class` and `active_window_title`; the text is the same for any
two non-empty filter values, and the filter value appears in the bound
arguments only. -/
theorem list_filter_allow_list (limit : Int) (filterField filterValue : String) :
    ((filterField ≠ "app" ∧ filterField ≠ "title") →
      listQuery limit filterField filterValue = listQuery limit "" filterValue ∧
      ∀ dbQuery, ListScreenshots dbQuery limit filterField filterValue =
        ListScreenshots dbQuery limit "" filterValue) ∧
    ((listQuery limit filterField filterValue).1 =
        selectScreenshots ++ " ORDER BY id DESC LIMIT ?" ∨
      (listQuery limit filterField filterValue).1 =
        selectScreenshots ++ " WHERE active_window_class LIKE ?" ++ " ORDER BY id DESC LIMIT ?" ∨
      (listQuery limit filterField filterValue).1 =
        selectScreenshots ++ " WHERE active_window_title LIKE ?" ++
          " ORDER BY id DESC LIMIT ?") ∧
    (∀ other : String, filterValue ≠ "" → other ≠ "" →
      (listQuery limit filterField other).1 = (listQuery limit filterField filterValue).1) ∧
    ((listQuery limit filterField filterValue).2 = [SqlArg.int limit] ∨
      (listQuery limit filterField filterValue).2 =
        [SqlArg.text ("%" ++ filterValue ++ "%"), SqlArg.int limit]) := by
  have hempty : ∀ v : String, listQuery limit "" v =
      (selectScreenshots ++ " ORDER BY id DESC LIMIT ?", [SqlArg.int limit]) := by
    intro v
    rcases listQuery_cases limit "" v with ⟨h1, -, -⟩ | ⟨h1, -, -⟩ | ⟨-, h1⟩
    · exact absurd h1 (by decide)
    · exact absurd h1 (by decide)
    · exact h1
  refine ⟨?_, ?_, ?_, ?_⟩
  · rintro ⟨ha, ht⟩
    have hq : listQuery limit filterField filterValue = listQuery limit "" filterValue := by
      rw [hempty]
      rcases listQuery_cases limit filterField filterValue with
        ⟨h1, -, -⟩ | ⟨h1, -, -⟩ | ⟨-, h1⟩
      · exact absurd h1 ha
      · exact absurd h1 ht
      · exact h1
    refine ⟨hq, ?_⟩
    intro dbQuery
    simp only [ListScreenshots, hq]
  · rcases listQuery_cases limit filterField filterValue with
      ⟨-, -, h1⟩ | ⟨-, -, h1⟩ | ⟨-, h1⟩
    · exact Or.inr (Or.inl (by rw [h1]))
    · exact Or.inr (Or.inr (by rw [h1]))
    · exact Or.inl (by rw [h1])
  · intro other hv ho
    have htext : ∀ v : String, v ≠ "" → (listQuery limit filterField v).1 =
        (if filterField = "app" then
          selectScreenshots ++ " WHERE active_window_class LIKE ?" ++ " ORDER BY id DESC LIMIT ?"
        else if filterField = "title" then
          selectScreenshots ++ " WHERE active_window_title LIKE ?" ++ " ORDER BY id DESC LIMIT ?"
        else selectScreenshots ++ " ORDER BY id DESC LIMIT ?") := by
      intro v hne
      rcases listQuery_cases limit filterField v with
        ⟨ha, -, h1⟩ | ⟨ha, -, h1⟩ | ⟨hc, h1⟩
      · rw [h1, if_pos ha]
      · have hna : filterField ≠ "app" := by
          rw [ha]
          decide
        rw [h1, if_neg hna, if_pos ha]
      · rcases hc with ⟨hna, hnt⟩ | hc
        · rw [h1, if_neg hna, if_neg hnt]
        · exact absurd hc hne
    rw [htext other ho, htext filterValue hv]
  · rcases listQuery_cases limit filterField filterValue with
      ⟨-, -, h1⟩ | ⟨-, -, h1⟩ | ⟨-, h1⟩
    · exact Or.inr (by rw [h1])
    · exact Or.inr (by rw [h1])
    · exact Or.inl (by rw [h1])

/-- C9 at a field outside the allow-list whose value carries SQL text: the
query is the unfiltered one, with the limit as its only bound argument. -/
theorem list_filter_allow_list_witness :
    listQuery 50 "id; DROP TABLE screenshots" "x" = listQuery 50 "" "x" ∧
    listQuery 50 "" "x" = (selectScreenshots ++ " ORDER BY id DESC LIMIT ?", [SqlArg.int 50]) ∧
    (listQuery 50 "app" "a OR 1=1").2 = [SqlArg.text "%a OR 1=1%", SqlArg.int 50] :=
  ⟨((list_filter_allow_list 50 "id; DROP TABLE screenshots" "x").1
      ⟨by decide, by decide⟩).1,
   rfl, rfl⟩

end OreGo

namespace OreGo

/-! ## The title kept by the client loop -/

/-- The client loop keeps this relation between its title and its list: the
title is that of the last client in the list, or empty when the list is. -/
theorem clientFold_lastTitle (captureAll : Bool) (vis : IntBoolMap) (tgt : Int)
    (l : List HyprWindow) (s : ClientScan)
    (hs : s.lastWindowTitle =
      (s.workspaceClients.getLast?.map (fun c => c.Title)).getD "") :
    (l.foldl (clientStep captureAll vis tgt) s).lastWindowTitle =
      ((l.foldl (clientStep captureAll vis tgt) s).workspaceClients.getLast?.map
        (fun c => c.Title)).getD "" := by
  induction l generalizing s with
  | nil => simpa using hs
  | cons c rest ih =>
    simp only [List.foldl_cons]
    apply ih
    by_cases hc : shouldInclude captureAll vis tgt c = true
    · simp [clientStep, hc, List.getLast?_concat, toClient]
    · simpa [clientStep, hc] using hs

/-- The selection test of the loop, stated over the monitors list. -/
theorem filter_shouldInclude (captureAll : Bool) (monitors : List HyprMonitor)
    (allClients : List HyprWindow) :
    allClients.filter (shouldInclude captureAll (scanMonitors monitors).visibleWorkspaceIDs
        (scanMonitors monitors).activeMon.ActiveWorkspace.ID) =
      allClients.filter (fun c =>
        if captureAll then monitors.any (fun m => m.ActiveWorkspace.ID == c.Workspace.ID)
        else c.Workspace.ID == (scanMonitors monitors).activeMon.ActiveWorkspace.ID) := by
  apply List.filter_congr
  intro c _
  rw [Bool.eq_iff_iff]
  cases captureAll with
  | false => simp [shouldInclude]
  | true =>
    have hv := scanMonitors_visible monitors c.Workspace.ID
    simp only [shouldInclude, if_true, Bool.if_true_right, Bool.or_false, List.any_eq_true,
      beq_iff_eq, Bool.if_false_right, Bool.and_true]
    simpa using hv

/-- C12: the `LastWindowTitle` of the returned record is the title of the last
element of its `Clients`, and the empty string when `Clients` is empty; that
last element is the last client of the compositor's array that passes the
selection test. -/
theorem last_window_title_is_last_client (h : Host) (captureAll : Bool) (r : Screenshot)
    (rawMonitors rawClients : Bytes) (monitors : List HyprMonitor)
    (allClients : List HyprWindow)
    (hM : h.runHyprctl ["monitors", "-j"] = .ok rawMonitors)
    (hMs : h.unmarshalMonitors rawMonitors = .ok monitors)
    (hC : h.runHyprctl ["clients", "-j"] = .ok rawClients)
    (hCs : h.unmarshalClients rawClients = .ok allClients)
    (hr : GetScreenshotData h captureAll = .ok r) :
    r.Workspace.LastWindowTitle = (r.Clients.getLast?.map (fun c => c.Title)).getD "" ∧
    (r.Clients = [] → r.Workspace.LastWindowTitle = "") ∧
    r.Workspace.LastWindowTitle =
      (((allClients.filter (fun c =>
          if captureAll then monitors.any (fun m => m.ActiveWorkspace.ID == c.Workspace.ID)
          else c.Workspace.ID == r.Workspace.ID)).getLast?).map (fun c => c.Title)).getD "" := by
  obtain ⟨rawA, rawM, mons, rawC, cl, -, hM1, hMs1, hC1, hCs1, rfl⟩ :=
    GetScreenshotData_ok_inv h captureAll r hr
  rw [hM] at hM1
  cases hM1
  rw [hMs] at hMs1
  cases hMs1
  rw [hC] at hC1
  cases hC1
  rw [hCs] at hCs1
  cases hCs1
  have hlast : (scanClients captureAll (scanMonitors monitors).visibleWorkspaceIDs
        (scanMonitors monitors).activeMon.ActiveWorkspace.ID allClients).lastWindowTitle =
      ((scanClients captureAll (scanMonitors monitors).visibleWorkspaceIDs
        (scanMonitors monitors).activeMon.ActiveWorkspace.ID
          allClients).workspaceClients.getLast?.map (fun c => c.Title)).getD "" :=
    clientFold_lastTitle captureAll _ _ allClients
      { workspaceClients := [], windowCount := 0, lastWindowTitle := "" } rfl
  refine ⟨hlast, ?_, ?_⟩
  · intro hnil
    have h1 : (composeScreenshot h captureAll (decodeActiveWindow h rawA)
        (scanMonitors monitors).activeMon
        (scanClients captureAll (scanMonitors monitors).visibleWorkspaceIDs
          (scanMonitors monitors).activeMon.ActiveWorkspace.ID
            allClients)).Workspace.LastWindowTitle = _ := hlast
    rw [h1]
    have h2 : (scanClients captureAll (scanMonitors monitors).visibleWorkspaceIDs
        (scanMonitors monitors).activeMon.ActiveWorkspace.ID allClients).workspaceClients =
          [] := hnil
    rw [h2]
    rfl
  · have h1 : (composeScreenshot h captureAll (decodeActiveWindow h rawA)
        (scanMonitors monitors).activeMon
        (scanClients captureAll (scanMonitors monitors).visibleWorkspaceIDs
          (scanMonitors monitors).activeMon.ActiveWorkspace.ID
            allClients)).Workspace.LastWindowTitle = _ := hlast
    rw [h1, scanClients_clients, filter_shouldInclude, List.getLast?_map]
    simp only [composeScreenshot, Option.map_map]
    rfl

/-- C12 at scenario 2: three windows, and the title of the last one, `chat`. -/
theorem last_window_title_is_last_client_witness :
    GetScreenshotData scenario2 true = .ok scenario2Record ∧
    scenario2Record.Workspace.Windows = 3 ∧
    scenario2Record.Workspace.LastWindowTitle = "chat" :=
  ⟨rfl, rfl,
   (last_window_title_is_last_client scenario2 true scenario2Record [91, 109, 93] [91, 99, 93]
     [monitorDP1, monitorDP2] scenarioClients rfl rfl rfl rfl rfl).1.trans (by decide)⟩

end OreGo

namespace OreGo

/-! ## The confirm-wait loop -/

/-- The loop always starts by a stat of the target. -/
theorem confirmWait_head (env : WaitEnv) (timeout : Int) (fuel k : Nat) (found : Bool)
    (events : List Event) (hw : confirmWait env timeout fuel k = some (found, events)) :
    ∃ rest, events = Event.stat k (env.stat k) :: rest := by
  cases fuel with
  | zero => simp [confirmWait] at hw
  | succ fuel =>
    unfold confirmWait at hw
    split at hw
    · rename_i hs
      cases hw
      exact ⟨[], by rw [hs]⟩
    · rename_i hs
      have hs2 : env.stat k = false := by simpa using hs
      split at hw
      · cases hw
        exact ⟨_, by rw [hs2]⟩
      · cases hrec : confirmWait env timeout fuel (k + 1) with
        | none =>
          rw [hrec] at hw
          cases hw
        | some p =>
          rw [hrec] at hw
          obtain ⟨b, tr⟩ := p
          cases hw
          exact ⟨_, by rw [hs2]⟩

/-- Every clock reading of the loop comes right after the failed stat of the same poll. -/
theorem confirmWait_since_after_stat (env : WaitEnv) (timeout : Int) :
    ∀ (fuel k : Nat) (found : Bool) (events : List Event),
      confirmWait env timeout fuel k = some (found, events) →
      ∀ (pre : List Event) (j : Nat) (d : Int) (post : List Event),
        events = pre ++ Event.since j d :: post →
        ∃ pre2, pre = pre2 ++ [Event.stat j false] := by
  intro fuel
  induction fuel with
  | zero =>
    intro k found events hw
    simp [confirmWait] at hw
  | succ fuel ih =>
    intro k found events hw pre j d post hdec
    unfold confirmWait at hw
    split at hw
    · cases hw
      rcases pre with _ | ⟨a, pre⟩
      · simp at hdec
      · simp at hdec
    · split at hw
      · cases hw
        rcases pre with _ | ⟨a, _ | ⟨b, pre⟩⟩
        · simp at hdec
        · simp only [List.cons_append, List.nil_append, List.cons.injEq, Event.since.injEq] at hdec
          obtain ⟨ha, ⟨hj, -⟩, -⟩ := hdec
          exact ⟨[], by rw [← ha, hj]; rfl⟩
        · simp at hdec
      · cases hrec : confirmWait env timeout fuel (k + 1) with
        | none =>
          rw [hrec] at hw
          cases hw
        | some p =>
          rw [hrec] at hw
          obtain ⟨b, tr⟩ := p
          cases hw
          rcases pre with _ | ⟨a1, _ | ⟨a2, _ | ⟨a3, _ | ⟨a4, pre⟩⟩⟩⟩
          · simp at hdec
          · simp only [List.cons_append, List.nil_append, List.cons.injEq,
              Event.since.injEq] at hdec
            obtain ⟨ha, ⟨hj, -⟩, -⟩ := hdec
            exact ⟨[], by rw [← ha, hj]; rfl⟩
          · simp at hdec
          · simp at hdec
          · simp only [List.cons_append, List.cons.injEq] at hdec
            obtain ⟨h1, h2, h3, h4, htr⟩ := hdec
            obtain ⟨pre2, hpre2⟩ := ih (k + 1) _ tr hrec pre j d post htr
            exact ⟨a1 :: a2 :: a3 :: a4 :: pre2, by rw [hpre2]; rfl⟩

/-- The loop never calls `Save`, and when it reports the file as found one of its stats succeeded. -/
theorem confirmWait_events (env : WaitEnv) (timeout : Int) :
    ∀ (fuel k : Nat) (found : Bool) (events : List Event),
      confirmWait env timeout fuel k = some (found, events) →
      (∀ sc, Event.save sc ∉ events) ∧ (found = true → ∃ j, Event.stat j true ∈ events) := by
  intro fuel
  induction fuel with
  | zero =>
    intro k found events hw
    simp [confirmWait] at hw
  | succ fuel ih =>
    intro k found events hw
    unfold confirmWait at hw
    split at hw
    · cases hw
      exact ⟨by simp, fun _ => ⟨k, by simp⟩⟩
    · split at hw
      · cases hw
        exact ⟨by simp, by simp⟩
      · cases hrec : confirmWait env timeout fuel (k + 1) with
        | none =>
          rw [hrec] at hw
          cases hw
        | some p =>
          rw [hrec] at hw
          obtain ⟨b, tr⟩ := p
          cases hw
          obtain ⟨h1, h2⟩ := ih (k + 1) _ tr hrec
          refine ⟨?_, ?_⟩
          · intro sc hmem
            simp only [List.mem_cons] at hmem
            rcases hmem with hmem | hmem | hmem | hmem | hmem
            · cases hmem
            · cases hmem
            · cases hmem
            · cases hmem
            · exact h1 sc hmem
          · intro hb
            obtain ⟨j, hj⟩ := h2 hb
            exact ⟨j, by simp [hj]⟩

/-- A stat that succeeds at poll `k + n`, with no earlier poll of the loop
having read an elapsed time over the timeout, ends the loop with the file
found, given fuel for `n + 1` polls. -/
theorem confirmWait_accepts (env : WaitEnv) (timeout : Int) :
    ∀ (n k : Nat), env.stat (k + n) = true →
      (∀ j < n, env.stat (k + j) = false → env.since (k + j) ≤ timeout) →
      ∀ fuel, n < fuel → ∃ events, confirmWait env timeout fuel k = some (true, events) := by
  intro n
  induction n with
  | zero =>
    intro k hs _ fuel hf
    obtain ⟨fuel, rfl⟩ : ∃ m, fuel = m + 1 := ⟨fuel - 1, by omega⟩
    have hs0 : env.stat k = true := by simpa using hs
    simp [confirmWait, hs0]
  | succ n ih =>
    intro k hs hle fuel hf
    obtain ⟨fuel, rfl⟩ : ∃ m, fuel = m + 1 := ⟨fuel - 1, by omega⟩
    by_cases hk : env.stat k = true
    · simp [confirmWait, hk]
    · have hk2 : env.stat k = false := by simpa using hk
      have hsince : ¬ env.since k > timeout := by
        have := hle 0 (by omega) (by simpa using hk2)
        simp only [Nat.add_zero] at this
        omega
      have hs1 : env.stat (k + 1 + n) = true := by
        have he : k + 1 + n = k + (n + 1) := by omega
        rw [he]
        exact hs
      have hle1 : ∀ j < n, env.stat (k + 1 + j) = false → env.since (k + 1 + j) ≤ timeout := by
        intro j hj hst
        have he : k + 1 + j = k + (j + 1) := by omega
        rw [he] at hst ⊢
        exact hle (j + 1) (by omega) hst
      obtain ⟨tr, htr⟩ := ih (k + 1) hs1 hle1 fuel (by omega)
      simp [confirmWait, hk2, hsince, htr]

/-- A poll `k + n` whose stat fails and whose clock reading is over the
timeout, all earlier polls having failed within the timeout, ends the loop
with the file not found, given fuel for `n + 1` polls. -/
theorem confirmWait_discards (env : WaitEnv) (timeout : Int) :
    ∀ (n k : Nat), env.stat (k + n) = false → env.since (k + n) > timeout →
      (∀ j < n, env.stat (k + j) = false ∧ env.since (k + j) ≤ timeout) →
      ∀ fuel, n < fuel → ∃ events, confirmWait env timeout fuel k = some (false, events) := by
  intro n
  induction n with
  | zero =>
    intro k hs hgt _ fuel hf
    obtain ⟨fuel, rfl⟩ : ∃ m, fuel = m + 1 := ⟨fuel - 1, by omega⟩
    have hs0 : env.stat k = false := by simpa using hs
    have hgt0 : env.since k > timeout := by simpa using hgt
    simp [confirmWait, hs0, hgt0]
  | succ n ih =>
    intro k hs hgt hle fuel hf
    obtain ⟨fuel, rfl⟩ : ∃ m, fuel = m + 1 := ⟨fuel - 1, by omega⟩
    obtain ⟨hk2, hle0⟩ := hle 0 (by omega)
    simp only [Nat.add_zero] at hk2 hle0
    have hsince : ¬ env.since k > timeout := by omega
    have he : k + 1 + n = k + (n + 1) := by omega
    have hs1 : env.stat (k + 1 + n) = false := by
      rw [he]
      exact hs
    have hgt1 : env.since (k + 1 + n) > timeout := by
      rw [he]
      exact hgt
    have hle1 : ∀ j < n, env.stat (k + 1 + j) = false ∧ env.since (k + 1 + j) ≤ timeout := by
      intro j hj
      have he2 : k + 1 + j = k + (j + 1) := by omega
      rw [he2]
      exact hle (j + 1) (by omega)
    obtain ⟨tr, htr⟩ := ih (k + 1) hs1 hgt1 hle1 fuel (by omega)
    simp [confirmWait, hk2, hsince, htr]

/-- The formatted file name is never empty. -/
theorem targetFilename_ne_empty (timestamp : String) : timestamp ++ "_orego.png" ≠ "" := by
  intro hempty
  have hlen := congrArg String.length hempty
  rw [String.length_append] at hlen
  have h10 : "_orego.png".length = 10 := by decide
  have h0 : "".length = 0 := by decide
  omega

/-- The joiner `joinPath` returns a non-empty path as soon as one element is non-empty. -/
theorem joinPath_ne_empty (elems : List String) (hne : ∃ e ∈ elems, e ≠ "") :
    joinPath elems ≠ "" := by
  induction elems with
  | nil =>
    obtain ⟨e, he, -⟩ := hne
    simp at he
  | cons x rest ih =>
    unfold joinPath
    by_cases hx : x = ""
    · rw [if_pos hx]
      apply ih
      obtain ⟨e, he, hene⟩ := hne
      rcases List.mem_cons.mp he with h1 | h1
      · rw [h1] at hene
        exact absurd hx hene
      · exact ⟨e, h1, hene⟩
    · rw [if_neg hx]
      by_cases hr : joinPath rest = ""
      · rw [if_pos hr]
        exact hx
      · rw [if_neg hr]
        intro hempty
        have hlen := congrArg String.length hempty
        simp only [String.length_append] at hlen
        have h1 : "/".length = 1 := by decide
        have h0 : "".length = 0 := by decide
        omega

end OreGo

namespace OreGo

/-- C11: for every sequence of stat results and clock readings, with a
`filepath.Join` that returns a non-empty path when one of its elements is
non-empty: (1) the loop starts by a stat of the target, and every clock
reading comes right after the failed stat of the same poll; (2) a stat that
succeeds before any poll has read an elapsed time strictly over the timeout
makes the pipeline call `Save` on the record with `FilePath` set to the target
path; (3) a failed stat followed by a reading over the timeout, all earlier
polls having failed within the timeout, ends the pipeline as discarded;
(4) whenever the pipeline ends, `Save` was called only after a stat that
succeeded, on a record whose `FilePath` is the non-empty target path, and on
the discard ending `Save` was not called and the store is untouched. -/
theorem confirm_wait_contract (env : WaitEnv) (f : SaveFaults) (store : Store) (timeout : Int)
    (join : List String → String) (homeDir timestamp : String) (data : Screenshot)
    (hjoin : ∀ elems : List String, (∃ e ∈ elems, e ≠ "") → join elems ≠ "") :
    (∀ fuel found events, confirmWait env timeout fuel 0 = some (found, events) →
      (∃ rest, events = Event.stat 0 (env.stat 0) :: rest) ∧
      (∀ pre j d post, events = pre ++ Event.since j d :: post →
        ∃ pre2, pre = pre2 ++ [Event.stat j false])) ∧
    (∀ n, env.stat n = true →
      (∀ j < n, env.stat j = false → env.since j ≤ timeout) →
      ∀ fuel, n < fuel →
        ∃ res, confirmAndPersist env f store timeout (targetPathOf join homeDir timestamp)
            data fuel = some res ∧
          Event.save { data with FilePath := targetPathOf join homeDir timestamp } ∈ res.events ∧
          res.ending ≠ CaptureEnd.discarded) ∧
    (∀ n, env.stat n = false → env.since n > timeout →
      (∀ j < n, env.stat j = false ∧ env.since j ≤ timeout) →
      ∀ fuel, n < fuel →
        ∃ res, confirmAndPersist env f store timeout (targetPathOf join homeDir timestamp)
            data fuel = some res ∧
          res.ending = CaptureEnd.discarded) ∧
    (∀ fuel res,
      confirmAndPersist env f store timeout (targetPathOf join homeDir timestamp) data fuel =
        some res →
      (∀ sc, Event.save sc ∈ res.events →
        (∃ j, Event.stat j true ∈ res.events) ∧
        sc.FilePath = targetPathOf join homeDir timestamp ∧ sc.FilePath ≠ "") ∧
      (res.ending = CaptureEnd.discarded →
        (∀ sc, Event.save sc ∉ res.events) ∧ res.store = store)) := by
  have hpath : targetPathOf join homeDir timestamp ≠ "" := by
    unfold targetPathOf
    apply hjoin
    exact ⟨timestamp ++ "_orego.png", by simp, targetFilename_ne_empty timestamp⟩
  refine ⟨?_, ?_, ?_, ?_⟩
  · intro fuel found events hw
    exact ⟨confirmWait_head env timeout fuel 0 found events hw,
      confirmWait_since_after_stat env timeout fuel 0 found events hw⟩
  · intro n hs hle fuel hf
    obtain ⟨tr, htr⟩ := confirmWait_accepts env timeout n 0 (by simpa using hs)
      (by simpa using hle) fuel hf
    unfold confirmAndPersist
    rw [htr]
    simp only [Bool.not_true, Bool.false_eq_true, if_false]
    split
    · exact ⟨_, rfl, by simp, by simp⟩
    · exact ⟨_, rfl, by simp, by simp⟩
  · intro n hs hgt hle fuel hf
    obtain ⟨tr, htr⟩ := confirmWait_discards env timeout n 0 (by simpa using hs)
      (by simpa using hgt) (by simpa using hle) fuel hf
    unfold confirmAndPersist
    rw [htr]
    exact ⟨_, rfl, rfl⟩
  · intro fuel res hres
    unfold confirmAndPersist at hres
    cases hw : confirmWait env timeout fuel 0 with
    | none =>
      rw [hw] at hres
      cases hres
    | some p =>
      rw [hw] at hres
      obtain ⟨found, tr⟩ := p
      obtain ⟨hnosave, hstat⟩ := confirmWait_events env timeout fuel 0 found tr hw
      cases found with
      | false =>
        simp only [Bool.not_false, if_true, Option.some.injEq] at hres
        subst hres
        have hno : ∀ sc, Event.save sc ∉ tr ++ [Event.stdout "\n",
            Event.stderr "Screenshot discarded (not saved within timeout).\n"] := by
          intro sc hmem
          rcases List.mem_append.mp hmem with h1 | h1
          · exact hnosave sc h1
          · simp at h1
        exact ⟨fun sc hmem => absurd hmem (hno sc), fun _ => ⟨hno, rfl⟩⟩
      | true =>
        obtain ⟨j, hj⟩ := hstat rfl
        simp only [Bool.not_true, Bool.false_eq_true, if_false] at hres
        split at hres
        · cases hres
          refine ⟨?_, ?_⟩
          · intro sc hmem
            rcases List.mem_append.mp hmem with h1 | h1
            · exact absurd h1 (hnosave sc)
            · have hsc : sc = { data with FilePath := targetPathOf join homeDir timestamp } := by
                simpa using h1
              subst hsc
              exact ⟨⟨j, List.mem_append_left _ hj⟩, rfl, hpath⟩
          · intro hend
            cases hend
        · cases hres
          refine ⟨?_, ?_⟩
          · intro sc hmem
            rcases List.mem_append.mp hmem with h1 | h1
            · exact absurd h1 (hnosave sc)
            · have hsc : sc = { data with FilePath := targetPathOf join homeDir timestamp } := by
                simpa using h1
              subst hsc
              exact ⟨⟨j, List.mem_append_left _ hj⟩, rfl, hpath⟩
          · intro hend
            cases hend

/-- C11 on three runs.  The target appears at the third poll, after a poll
that read exactly the timeout: accepted, and saved under the target path.  The
target never appears: discarded at the first reading over the timeout, store
untouched.  Timeout zero and a target that is already there: one stat,
accepted. -/
theorem confirm_wait_contract_witness :
    confirmWait boundaryWait oneSecond 3 0 =
      some (true, [Event.stat 0 false, Event.since 0 500000000, Event.sleep 500000000,
        Event.stdout ".", Event.stat 1 false, Event.since 1 1000000000,
        Event.sleep 500000000, Event.stdout ".", Event.stat 2 true]) ∧
    (∃ res, confirmAndPersist boundaryWait SaveFaults.noFault openedStore oneSecond
        (targetPathOf joinPath "/home/user" "2024-01-01_00-00-00") scenario1Record 3 =
          some res ∧
      Event.save { scenario1Record with
        FilePath := targetPathOf joinPath "/home/user" "2024-01-01_00-00-00" } ∈ res.events ∧
      res.ending ≠ CaptureEnd.discarded) ∧
    targetPathOf joinPath "/home/user" "2024-01-01_00-00-00" =
      "/home/user/Pictures/Screenshots/2024-01-01_00-00-00_orego.png" ∧
    (∃ res, confirmAndPersist neverSaved SaveFaults.noFault openedStore oneSecond
        (targetPathOf joinPath "/home/user" "2024-01-01_00-00-00") scenario1Record 3 =
          some res ∧
      res.ending = CaptureEnd.discarded) ∧
    confirmWait { stat := fun _ => true, since := fun _ => 5 } 0 1 0 =
      some (true, [Event.stat 0 true]) :=
  ⟨by decide,
   (confirm_wait_contract boundaryWait SaveFaults.noFault openedStore oneSecond joinPath
      "/home/user" "2024-01-01_00-00-00" scenario1Record joinPath_ne_empty).2.1 2
      (by decide) (by decide) 3 (by decide),
   by decide,
   (confirm_wait_contract neverSaved SaveFaults.noFault openedStore oneSecond joinPath
      "/home/user" "2024-01-01_00-00-00" scenario1Record joinPath_ne_empty).2.2.1 2
      (by decide) (by decide) (by decide) 3 (by decide),
   by decide⟩

end OreGo
